import Mathlib

/-!
Verification of the VFS core (URI/accession parser, path serializer,
resolver facade, manager) of the SRA toolkit, via a shallow embedding of
`libs/vfs/path.c` and `libs/vfs/manager.c` into Lean.

Strings are modelled as lists of Unicode code points (`List Char`); the C
parser decodes UTF-8 bytes into code points before classifying them, so a
code-point-level model is faithful for every classification decision.  The
redundant character-count field (`count`) that the C code stores alongside
each captured `String` slice is not modelled: it never influences behaviour.
-/

namespace SRA

/-- Return-code model: the five enumerated components of the `rc_t`
bit-packed return code, as used by the embedded functions. -/
inductive RCModule | rcVFS | rcKrypto
deriving Repr, DecidableEq

inductive RCTarget | rcPath | rcMgr | rcFile | rcEncryptionKeyT | rcNoTarg
deriving Repr, DecidableEq

inductive RCContext
  | rcParsing | rcResolving | rcUpdating | rcConstructing | rcReading
  | rcAccessing | rcAttaching | rcOpening | rcAllocating | rcDestroying
  | rcWriting
deriving Repr, DecidableEq

inductive RCObject
  | rcChar | rcData | rcString | rcParam | rcSelf | rcMemory | rcSRA
  | rcEncryptionKeyO | rcSize | rcPathO | rcBuffer | rcRange | rcToken
  | rcType | rcRefcount | rcDirectory | rcNoObj
deriving Repr, DecidableEq

inductive RCState
  | rcUnexpected | rcInvalid | rcInsufficient | rcExcessive | rcEmpty
  | rcNull | rcExhausted | rcNotAvailable | rcNotFound | rcIncorrect
  | rcUnsupported | rcCorrupt | rcUnknown | rcBusy
deriving Repr, DecidableEq

/-- A structured return code `RC ( mod, targ, ctx, obj, state )`. -/
structure RC where
  mod : RCModule
  targ : RCTarget
  ctx : RCContext
  obj : RCObject
  state : RCState
deriving Repr, DecidableEq

/-- `RC ( rcVFS, rcPath, rcParsing, rcChar, rcUnexpected )` -/
def rcUnexpectedChar : RC := ⟨.rcVFS, .rcPath, .rcParsing, .rcChar, .rcUnexpected⟩

/-- `RC ( rcVFS, rcPath, rcParsing, rcData, rcInsufficient )` -/
def rcInsufficientData : RC := ⟨.rcVFS, .rcPath, .rcParsing, .rcData, .rcInsufficient⟩

/-- `RC ( rcVFS, rcPath, rcParsing, rcData, rcExcessive )` -/
def rcExcessiveData : RC := ⟨.rcVFS, .rcPath, .rcParsing, .rcData, .rcExcessive⟩

/-- `RC ( rcVFS, rcPath, rcParsing, rcString, rcEmpty )` -/
def rcEmptyString : RC := ⟨.rcVFS, .rcPath, .rcParsing, .rcString, .rcEmpty⟩

/-- `VPUri_t`: the scheme classification (path-priv.h).  `vpuri_none` is the
zero enumerant, so a `calloc`-ed `VPath` starts with scheme type `none`. -/
inductive VPUri
  | vpuri_invalid
  | vpuri_none
  | vpuri_not_supported
  | vpuri_ncbi_vfs
  | vpuri_file
  | vpuri_ncbi_acc
  | vpuri_ncbi_obj
  | vpuri_ncbi_file
  | vpuri_ncbi_legrefseq
  | vpuri_http
  | vpuri_ftp
  | vpuri_fasp
deriving Repr, DecidableEq

/-- `VPathType`: the path classification.  `vpInvalid` is the zero
enumerant (a fresh `calloc`-ed `VPath` is invalid until a capture runs). -/
inductive VPPathType
  | vpInvalid
  | vpOID
  | vpAccession
  | vpNameOrOID
  | vpNameOrAccession
  | vpName
  | vpRelPath
  | vpFullPath
  | vpUNCPath
  | vpHostName
  | vpEndpoint
  | vpAuth
deriving Repr, DecidableEq

/-- `VHostType`: `vhDNSName` is the zero enumerant (path-priv.h), so a
`VPath` with no captured host has host type `vhDNSName` with an empty host
string; this is what makes `VPathReadHostInt` print just the `//` prefix for
a URI with no authority, which `VPathReadUriInt` then strips again. -/
inductive VHostType
  | vhDNSName
  | vhIPv4
  | vhIPv6
deriving Repr, DecidableEq

/-- The `VPath` value (path-priv.h / path.c).  String slices into the
backing buffer are modelled as `List Char`; the redundant stored character
counts are dropped.  Defaults reflect the `calloc` zero-initialisation. -/
structure VPath where
  from_uri : Bool := false
  scheme_type : VPUri := .vpuri_none
  scheme : List Char := []
  auth : List Char := []
  host : List Char := []
  portname : List Char := []
  portnum : Nat := 0
  missing_port : Bool := false
  host_type : VHostType := .vhDNSName
  ipv4 : Nat := 0
  ipv6 : List Nat := [0, 0, 0, 0, 0, 0, 0, 0]
  path : List Char := []
  path_type : VPPathType := .vpInvalid
  query : List Char := []
  fragment : List Char := []
  obj_id : Nat := 0
  acc_code : Nat := 0
deriving Repr, DecidableEq

/-- `StringInit ( &str, &uri[start], stop-start, ... )`: the slice
`uri[start..stop)`. -/
def extractStr (uri : List Char) (start stop : Nat) : List Char :=
  (uri.drop start).take (stop - start)

/-- ASCII `isalpha` (applied only to code points < 128, as in the C). -/
def isAlphaA (c : Char) : Bool :=
  (65 ≤ c.toNat && c.toNat ≤ 90) || (97 ≤ c.toNat && c.toNat ≤ 122)

/-- ASCII `isdigit`. -/
def isDigitA (c : Char) : Bool := 48 ≤ c.toNat && c.toNat ≤ 57

/-- ASCII `isalnum`. -/
def isAlnumA (c : Char) : Bool := isAlphaA c || isDigitA c

/-- ASCII `isxdigit`. -/
def isXDigitA (c : Char) : Bool :=
  isDigitA c || (65 ≤ c.toNat && c.toNat ≤ 70) || (97 ≤ c.toNat && c.toNat ≤ 102)

/-- Numeric value of a decimal digit character (`ch - '0'`). -/
def digitVal (c : Char) : Nat := c.toNat - 48

/-- `toupper ( ch ) - 'A' + 10` for a hex letter. -/
def hexLetterVal (c : Char) : Nat :=
  (if 97 ≤ c.toNat then c.toNat - 32 else c.toNat) - 65 + 10

/-- ASCII `tolower` of one character (for `strcase_cmp`). -/
def lowerChar (c : Char) : Char :=
  if 65 ≤ c.toNat && c.toNat ≤ 90 then Char.ofNat (c.toNat + 32) else c

/-- Case-folded string, for the case-insensitive scheme comparisons. -/
def lowerStr (s : List Char) : List Char := s.map lowerChar

/-- The scheme table of `VPathCaptureScheme`.  The C dispatches on the
scheme length and then compares case-insensitively against the candidates
of that length; since all candidates are distinct this is equivalent to a
case-insensitive lookup in the table.  Note that neither `https` nor
`ncbi-vfs` appears in the C switch of this revision: both fall through to
`vpuri_not_supported`. -/
def schemeTypeOf (s : List Char) : VPUri :=
  let l := lowerStr s
  if l = "ftp".data then .vpuri_ftp
  else if l = "file".data then .vpuri_file
  else if l = "fasp".data then .vpuri_fasp
  else if l = "http".data then .vpuri_http
  else if l = "ncbi-acc".data then .vpuri_ncbi_acc
  else if l = "ncbi-obj".data then .vpuri_ncbi_obj
  else if l = "ncbi-file".data then .vpuri_ncbi_file
  else if l = "x-ncbi-legrefseq".data then .vpuri_ncbi_legrefseq
  else .vpuri_not_supported

/-- `VPathCaptureScheme` (path.c:211). -/
def VPathCaptureScheme (p : VPath) (uri : List Char) (start stop : Nat) : VPath :=
  let s := extractStr uri start stop
  let p := { p with scheme := s, from_uri := true }
  if s.length = 0 then p else { p with scheme_type := schemeTypeOf s }

/-- `MAX_ACCESSION_LEN` (path.c:43). -/
def MAX_ACCESSION_LEN : Nat := 20

/-- `VPathCaptureAccession` (path.c:307). -/
def VPathCaptureAccession (p : VPath) (uri : List Char) (start stop : Nat) : VPath :=
  let s := extractStr uri start stop
  let p := { p with path := s }
  match p.scheme_type with
  | .vpuri_none => { p with path_type := .vpNameOrAccession }
  | .vpuri_ncbi_acc =>
      if s.length < MAX_ACCESSION_LEN then { p with path_type := .vpAccession }
      else { p with path_type := .vpName }
  | _ => { p with path_type := .vpName }

/-- `VPathCaptureAccCode` (path.c:330): packs the accession shape into the
20-bit `acc_code` (as a 32-bit OR of shifted fields, like the C) and then
applies the decision table that upgrades `vpNameOrAccession` to
`vpAccession` for the refseq / wgs / named-annot. families.  The sra shapes
`0x036`-`0x039` deliberately stay `vpNameOrAccession`. -/
def VPathCaptureAccCode (p : VPath)
    (accPfx accAlpha accDigit accExt accSfx : Nat) : VPath :=
  let code : Nat :=
    ((accPfx <<< 16) ||| (accAlpha <<< 12) ||| (accDigit <<< 8) |||
     (accExt <<< 4) ||| accSfx) % 2 ^ 32
  let p := { p with acc_code := code }
  if p.path_type = .vpNameOrAccession then
    let hi := code >>> 8
    if hi = 0x015 ∨ hi = 0x026 ∨ hi = 0x106 ∨ hi = 0x126 then
      { p with path_type := .vpAccession }      -- refseq
    else if hi = 0x109 then
      { p with path_type := .vpAccession }      -- refseq or named annot.
    else if hi = 0x042 ∨ hi = 0x048 ∨ hi = 0x049 ∨
            hi = 0x142 ∨ hi = 0x148 ∨ hi = 0x149 then
      { p with path_type := .vpAccession }      -- wgs
    else if hi = 0x029 then
      if code = 0x02910 ∧ p.path.getD 0 ' ' = 'N' ∧ p.path.getD 1 ' ' = 'A' then
        { p with path_type := .vpAccession }    -- na
      else p
    else p
  else p

/-- `VPathCaptureOid` (path.c:391). -/
def VPathCaptureOid (p : VPath) (oid : Nat) (uri : List Char)
    (start oidStart stop : Nat) : VPath :=
  let oidSize := stop - oidStart
  if oid = 0 ∨ oidSize > 10 ∨ oid > 0xFFFFFFFF then
    { p with path_type := .vpName, path := extractStr uri start stop }
  else
    let p := { p with obj_id := oid }  -- (uint32_t) cast is the identity here
    if p.scheme_type = .vpuri_ncbi_obj then
      { p with path := extractStr uri oidStart stop, path_type := .vpOID }
    else
      { p with path_type := .vpNameOrOID, path := extractStr uri start stop }

/-- `VPathCaptureAuth` (path.c:415). -/
def VPathCaptureAuth (p : VPath) (uri : List Char) (start stop : Nat) : VPath :=
  { p with auth := extractStr uri start stop, path_type := .vpAuth }

/-- `VPathCaptureHostName` (path.c:422). -/
def VPathCaptureHostName (p : VPath) (uri : List Char) (start stop : Nat) : VPath :=
  { p with host := extractStr uri start stop, path_type := .vpHostName }

/-- `VPathCaptureIPv4` (path.c:429). -/
def VPathCaptureIPv4 (p : VPath) (q : List Nat) : Except RC VPath :=
  if q.any (256 ≤ ·) then .error rcExcessiveData
  else .ok { p with
    ipv4 := q.getD 0 0 * 2 ^ 24 + q.getD 1 0 * 2 ^ 16 + q.getD 2 0 * 2 ^ 8 + q.getD 3 0,
    path_type := .vpEndpoint, host_type := .vhIPv4 }

/-- `VPathCaptureIPv6` (path.c:453). -/
def VPathCaptureIPv6 (p : VPath) (q : List Nat) : Except RC VPath :=
  if q.any (0x10000 ≤ ·) then .error rcExcessiveData
  else .ok { p with ipv6 := q, path_type := .vpEndpoint, host_type := .vhIPv6 }

/-- `VPathCapturePortName` (path.c:472). -/
def VPathCapturePortName (p : VPath) (uri : List Char) (start stop : Nat) : VPath :=
  { p with portname := extractStr uri start stop, path_type := .vpEndpoint }

/-- `VPathCapturePortNum` (path.c:479). -/
def VPathCapturePortNum (p : VPath) (port : Nat) : Except RC VPath :=
  if 0x10000 ≤ port then .error rcExcessiveData
  else .ok { p with portnum := port, path_type := .vpEndpoint }

/-- `VPathCapturePath` (path.c:491). -/
def VPathCapturePath (p : VPath) (uri : List Char) (start stop : Nat)
    (var : VPPathType) : VPath :=
  { p with path := extractStr uri start stop, path_type := var }

/-- `VPathCaptureQuery` (path.c:498). -/
def VPathCaptureQuery (p : VPath) (uri : List Char) (start stop : Nat) : VPath :=
  { p with query := extractStr uri start stop }

/-- `VPathCaptureFragment` (path.c:504). -/
def VPathCaptureFragment (p : VPath) (uri : List Char) (start stop : Nat) : VPath :=
  { p with fragment := extractStr uri start stop }

/-- The forty-one states of `VPathParse` (path.c:163). -/
inductive VPathParseState
  | vppStart
  | vppAccPrefixAlphaNamePathOrScheme
  | vppAccAlphaNamePath
  | vppAccDigitNamePathOrScheme
  | vppAccDigitNamePath
  | vppAccExtNamePathOrScheme
  | vppAccExtNamePath
  | vppAccSuffixNamePath
  | vppAccDotNamePathOrScheme
  | vppAccDotNamePath
  | vppAccUnderNamePath
  | vppNamePathOrScheme
  | vppAccOidRelOrSlash
  | vppAccPrefixAlphaRel
  | vppAccAlphaRel
  | vppAccDigitRel
  | vppAccExtRel
  | vppAccSuffixRel
  | vppOidRel
  | vppAccDotRel
  | vppAccUnderRel
  | vppSlash
  | vppAuthHostSpec
  | vppAuthHostNamePort
  | vppHostSpec
  | vppHostNamePort
  | vppIPv4Port
  | vppIPv4Dot
  | vppIPv6Port
  | vppIPv6Colon
  | vppPortSpecOrFullPath
  | vppPortSpec
  | vppPortName
  | vppPortNum
  | vppNamePath
  | vppUNCOrMalformedPOSIXPath
  | vppFullOrUNCPath
  | vppRelPath
  | vppFullPath
  | vppUNCPath
  | vppParamName
  | vppParamValue
  | vppFragment
deriving Repr, DecidableEq

/-- The mutable locals of `VPathParse` together with the `VPath` under
construction.  The accumulators are the C locals (`acc_prefix` is
`accPfx`, `acc_suffix` is `accSfx`); numeric accumulation is done modulo
the C integer widths. -/
structure PSt where
  state : VPathParseState := .vppStart
  anchor : Nat := 0
  accPfx : Nat := 0
  accAlpha : Nat := 0
  accDigit : Nat := 0
  accExt : Nat := 0
  accSfx : Nat := 0
  ip : Nat := 0
  ipv4 : List Nat := [0, 0, 0, 0]
  ipv6 : List Nat := [0, 0, 0, 0, 0, 0, 0, 0]
  port : Nat := 0
  oid : Nat := 0
  oidAnchor : Nat := 0
  p : VPath := {}
deriving Repr, DecidableEq

/-- Capture an accession plus its shape code, as done on `?`, `#` and at
end of input from the accession states. -/
def captureAcc (st : PSt) (uri : List Char) (i : Nat) : VPath :=
  VPathCaptureAccCode (VPathCaptureAccession st.p uri st.anchor i)
    st.accPfx st.accAlpha st.accDigit st.accExt st.accSfx

/-- Shared body of the `vppRelPath` / `vppFullPath` states (the C lets
`vppFullOrUNCPath` fall through into this case after setting the state). -/
def stepRelFull (uri : List Char) (i : Nat) (c : Char) (st : PSt) : Except RC PSt :=
  match c with
  | ':' => .error rcUnexpectedChar
  | '?' =>
      let t : VPPathType := if st.state = .vppRelPath then .vpRelPath else .vpFullPath
      .ok { st with p := VPathCapturePath st.p uri st.anchor i t,
                    state := .vppParamName, anchor := i }
  | '#' =>
      let t : VPPathType := if st.state = .vppRelPath then .vpRelPath else .vpFullPath
      .ok { st with p := VPathCapturePath st.p uri st.anchor i t,
                    state := .vppFragment, anchor := i }
  | _ => .ok st

/-- One character step of `VPathParse` (path.c:539-1886): the character at
index `i` of `uri` is `c`.  Transcribed state by state from the C switch;
the per-iteration `++count` of the redundant character counter is dropped. -/
def parseStep (uri : List Char) (i : Nat) (c : Char) (st : PSt) : Except RC PSt :=
  match st.state with
  | .vppStart =>
      if 128 ≤ c.toNat then .ok { st with state := .vppNamePath }
      else if isAlphaA c then
        .ok { st with accAlpha := 1, state := .vppAccPrefixAlphaNamePathOrScheme }
      else if isDigitA c then .ok { st with state := .vppNamePath }
      else match c with
        | '/' => .ok { st with state := .vppFullOrUNCPath }
        | ':' | '?' | '#' => .error rcUnexpectedChar
        | _ => .ok { st with state := .vppNamePath }

  | .vppAccPrefixAlphaNamePathOrScheme =>
      if 128 ≤ c.toNat then .ok { st with accAlpha := 0, state := .vppNamePath }
      else if isAlphaA c then .ok { st with accAlpha := st.accAlpha + 1 }
      else if isDigitA c then
        .ok { st with accDigit := st.accDigit + 1, state := .vppAccDigitNamePathOrScheme }
      else match c with
        | '/' => .ok { st with accAlpha := 0, state := .vppRelPath }
        | '_' => .ok { st with accPfx := 1, accAlpha := 0, state := .vppAccAlphaNamePath }
        | '.' | '+' | '-' => .ok { st with accAlpha := 0, state := .vppNamePathOrScheme }
        | ':' => .ok { st with accAlpha := 0,
                               p := VPathCaptureScheme st.p uri st.anchor i,
                               state := .vppAccOidRelOrSlash }
        | '?' | '#' => .error rcUnexpectedChar
        | _ => .ok { st with accAlpha := 0, state := .vppNamePath }

  | .vppAccAlphaNamePath =>
      if 128 ≤ c.toNat then
        .ok { st with accPfx := 0, accAlpha := 0, state := .vppNamePath }
      else if isAlphaA c then .ok { st with accAlpha := st.accAlpha + 1 }
      else if isDigitA c then
        .ok { st with accDigit := st.accDigit + 1, state := .vppAccDigitNamePath }
      else match c with
        | '/' => .ok { st with accPfx := 0, accAlpha := 0, state := .vppRelPath }
        | ':' | '?' | '#' => .error rcUnexpectedChar
        | _ => .ok { st with accPfx := 0, accAlpha := 0, state := .vppNamePath }

  | .vppAccDigitNamePathOrScheme =>
      if 128 ≤ c.toNat then
        .ok { st with accPfx := 0, accAlpha := 0, accDigit := 0, state := .vppNamePath }
      else if isAlphaA c then
        .ok { st with accPfx := 0, accAlpha := 0, accDigit := 0,
                      state := .vppNamePathOrScheme }
      else if isDigitA c then .ok { st with accDigit := st.accDigit + 1 }
      else match c with
        | '/' => .ok { st with accPfx := 0, accAlpha := 0, accDigit := 0,
                               state := .vppRelPath }
        | '.' => .ok { st with state := .vppAccDotNamePathOrScheme }
        | '+' | '-' => .ok { st with accPfx := 0, accAlpha := 0, accDigit := 0,
                                     state := .vppNamePathOrScheme }
        | ':' => .ok { st with accPfx := 0, accAlpha := 0, accDigit := 0,
                               p := VPathCaptureScheme st.p uri st.anchor i,
                               state := .vppAccOidRelOrSlash }
        | '?' | '#' => .error rcUnexpectedChar
        | _ => .ok { st with accPfx := 0, accAlpha := 0, accDigit := 0,
                             state := .vppNamePath }

  | .vppAccDigitNamePath =>
      if 128 ≤ c.toNat || isAlphaA c then
        .ok { st with accPfx := 0, accAlpha := 0, accDigit := 0, state := .vppNamePath }
      else if isDigitA c then .ok { st with accDigit := st.accDigit + 1 }
      else match c with
        | '/' => .ok { st with accPfx := 0, accAlpha := 0, accDigit := 0,
                               state := .vppRelPath }
        | '.' => .ok { st with state := .vppAccDotNamePath }
        | ':' | '?' | '#' => .error rcUnexpectedChar
        | _ => .ok { st with accPfx := 0, accAlpha := 0, accDigit := 0,
                             state := .vppNamePath }

  | .vppAccExtNamePathOrScheme =>
      if 128 ≤ c.toNat then
        .ok { st with accPfx := 0, accAlpha := 0, accDigit := 0, accExt := 0,
                      state := .vppNamePath }
      else if isAlphaA c then
        .ok { st with accPfx := 0, accAlpha := 0, accDigit := 0, accExt := 0,
                      state := .vppNamePathOrScheme }
      else if isDigitA c then .ok st
      else match c with
        | '/' => .ok { st with accPfx := 0, accAlpha := 0, accDigit := 0, accExt := 0,
                               state := .vppRelPath }
        | '.' => .ok { st with state := .vppAccDotNamePathOrScheme }
        | '+' | '-' => .ok { st with accPfx := 0, accAlpha := 0, accDigit := 0,
                                     accExt := 0, state := .vppNamePathOrScheme }
        | ':' => .ok { st with accPfx := 0, accAlpha := 0, accDigit := 0, accExt := 0,
                               p := VPathCaptureScheme st.p uri st.anchor i,
                               state := .vppAccOidRelOrSlash }
        | '?' | '#' => .error rcUnexpectedChar
        | '_' =>
            if st.accPfx ≠ 0 ∧ st.accAlpha = 0 ∧ st.accDigit = 9 then
              .ok { st with state := .vppAccUnderNamePath }
            else
              .ok { st with accPfx := 0, accAlpha := 0, accDigit := 0, accExt := 0,
                            state := .vppNamePath }
        | _ => .ok { st with accPfx := 0, accAlpha := 0, accDigit := 0, accExt := 0,
                             state := .vppNamePath }

  | .vppAccExtNamePath =>
      if 128 ≤ c.toNat || isAlphaA c then
        .ok { st with accPfx := 0, accAlpha := 0, accDigit := 0, accExt := 0,
                      state := .vppNamePath }
      else if isDigitA c then .ok st
      else match c with
        | '/' => .ok { st with accPfx := 0, accAlpha := 0, accDigit := 0, accExt := 0,
                               state := .vppRelPath }
        | '.' => .ok { st with state := .vppAccDotNamePath }
        | ':' | '?' | '#' => .error rcUnexpectedChar
        | '_' =>
            if st.accPfx ≠ 0 ∧ st.accAlpha = 0 ∧ st.accDigit = 9 ∧ st.accExt = 1 then
              .ok { st with state := .vppAccUnderNamePath }
            else
              .ok { st with accPfx := 0, accAlpha := 0, accDigit := 0, accExt := 0,
                            state := .vppNamePath }
        | _ => .ok { st with accPfx := 0, accAlpha := 0, accDigit := 0, accExt := 0,
                             state := .vppNamePath }

  | .vppAccSuffixNamePath =>
      if 128 ≤ c.toNat || isDigitA c then
        .ok { st with accPfx := 0, accAlpha := 0, accDigit := 0, accExt := 0,
                      accSfx := 0, state := .vppNamePath }
      else if isAlphaA c then .ok st
      else match c with
        | '/' => .ok { st with accPfx := 0, accAlpha := 0, accDigit := 0, accExt := 0,
                               accSfx := 0, state := .vppRelPath }
        | ':' | '?' | '#' => .error rcUnexpectedChar
        | _ => .ok { st with accPfx := 0, accAlpha := 0, accDigit := 0, accExt := 0,
                             accSfx := 0, state := .vppNamePath }

  | .vppAccDotNamePathOrScheme =>
      if 128 ≤ c.toNat then
        .ok { st with accPfx := 0, accAlpha := 0, accDigit := 0, accExt := 0,
                      state := .vppNamePath }
      else if isAlphaA c then
        .ok { st with accPfx := 0, accAlpha := 0, accDigit := 0, accExt := 0,
                      state := .vppNamePathOrScheme }
      else if isDigitA c then
        .ok { st with accExt := st.accExt + 1, state := .vppAccExtNamePathOrScheme }
      else match c with
        | '/' => .ok { st with accPfx := 0, accAlpha := 0, accDigit := 0, accExt := 0,
                               state := .vppRelPath }
        | '.' | '+' | '-' => .ok { st with accPfx := 0, accAlpha := 0, accDigit := 0,
                                           accExt := 0, state := .vppNamePathOrScheme }
        | ':' => .ok { st with accPfx := 0, accAlpha := 0, accDigit := 0, accExt := 0,
                               p := VPathCaptureScheme st.p uri st.anchor i,
                               state := .vppAccOidRelOrSlash }
        | '?' | '#' => .error rcUnexpectedChar
        | _ => .ok { st with accPfx := 0, accAlpha := 0, accDigit := 0, accExt := 0,
                             state := .vppNamePath }

  | .vppAccDotNamePath =>
      if 128 ≤ c.toNat || isAlphaA c then
        .ok { st with accPfx := 0, accAlpha := 0, accDigit := 0, accExt := 0,
                      state := .vppNamePath }
      else if isDigitA c then
        .ok { st with accExt := st.accExt + 1, state := .vppAccExtNamePath }
      else match c with
        | '/' => .ok { st with accPfx := 0, accAlpha := 0, accDigit := 0, accExt := 0,
                               state := .vppRelPath }
        | ':' | '?' | '#' => .error rcUnexpectedChar
        | _ => .ok { st with accPfx := 0, accAlpha := 0, accDigit := 0, accExt := 0,
                             state := .vppNamePath }

  | .vppAccUnderNamePath =>
      if 128 ≤ c.toNat || isDigitA c then
        .ok { st with accPfx := 0, accAlpha := 0, accDigit := 0, accExt := 0,
                      state := .vppNamePath }
      else if isAlphaA c then
        .ok { st with accSfx := st.accSfx + 1, state := .vppAccSuffixNamePath }
      else match c with
        | '/' => .ok { st with accPfx := 0, accAlpha := 0, accDigit := 0, accExt := 0,
                               state := .vppRelPath }
        | ':' | '?' | '#' => .error rcUnexpectedChar
        | _ => .ok { st with accPfx := 0, accAlpha := 0, accDigit := 0, accExt := 0,
                             state := .vppNamePath }

  | .vppNamePathOrScheme =>
      if 128 ≤ c.toNat then .ok { st with state := .vppNamePath }
      else if isAlnumA c then .ok st
      else match c with
        | '/' => .ok { st with state := .vppRelPath }
        | '.' | '+' | '-' => .ok st
        | ':' => .ok { st with p := VPathCaptureScheme st.p uri st.anchor i,
                               state := .vppAccOidRelOrSlash }
        | '?' | '#' => .error rcUnexpectedChar
        | _ => .ok { st with state := .vppNamePath }

  | .vppAccOidRelOrSlash =>
      -- the case body starts with VPathParseResetAnchor ( i ) and
      -- acc_prefix = acc_digit = acc_ext = 0
      let st := { st with anchor := i, accPfx := 0, accDigit := 0, accExt := 0 }
      if 128 ≤ c.toNat then .ok { st with state := .vppNamePath }
      else if isAlphaA c then
        .ok { st with accAlpha := 1, state := .vppAccPrefixAlphaRel }
      else if isDigitA c then
        .ok { st with state := .vppOidRel, oid := digitVal c, oidAnchor := i }
      else if c ≠ '/' then .ok { st with state := .vppNamePath }
      else .ok { st with state := .vppSlash }

  | .vppAccPrefixAlphaRel =>
      if 128 ≤ c.toNat then .ok { st with accAlpha := 0, state := .vppNamePath }
      else if isAlphaA c then .ok { st with accAlpha := st.accAlpha + 1 }
      else if isDigitA c then
        .ok { st with accDigit := st.accDigit + 1, state := .vppAccDigitRel }
      else match c with
        | '_' => .ok { st with accPfx := 1, accAlpha := 0, state := .vppAccAlphaRel }
        | '/' => .ok { st with accAlpha := 0, state := .vppRelPath }
        | '?' => .ok { st with p := captureAcc st uri i,
                               state := .vppParamName, anchor := i }
        | '#' => .ok { st with p := captureAcc st uri i,
                               state := .vppFragment, anchor := i }
        | ':' => .error rcUnexpectedChar
        | _ => .ok { st with accAlpha := 0, state := .vppNamePath }

  | .vppAccAlphaRel =>
      if 128 ≤ c.toNat then
        .ok { st with accPfx := 0, accAlpha := 0, state := .vppNamePath }
      else if isAlphaA c then .ok { st with accAlpha := st.accAlpha + 1 }
      else if isDigitA c then
        .ok { st with accDigit := st.accDigit + 1, state := .vppAccDigitRel }
      else match c with
        | '/' => .ok { st with accPfx := 0, accAlpha := 0, state := .vppRelPath }
        | '?' => .ok { st with p := captureAcc st uri i,
                               state := .vppParamName, anchor := i }
        | '#' => .ok { st with p := captureAcc st uri i,
                               state := .vppFragment, anchor := i }
        | ':' => .error rcUnexpectedChar
        | _ => .ok { st with accPfx := 0, accAlpha := 0, state := .vppNamePath }

  | .vppAccDigitRel =>
      if 128 ≤ c.toNat || isAlphaA c then
        .ok { st with accPfx := 0, accAlpha := 0, accDigit := 0, state := .vppNamePath }
      else if isDigitA c then .ok { st with accDigit := st.accDigit + 1 }
      else match c with
        | '.' => .ok { st with state := .vppAccDotRel }
        | '/' => .ok { st with accPfx := 0, accAlpha := 0, accDigit := 0,
                               state := .vppRelPath }
        | '?' => .ok { st with p := captureAcc st uri i,
                               state := .vppParamName, anchor := i }
        | '#' => .ok { st with p := captureAcc st uri i,
                               state := .vppFragment, anchor := i }
        | ':' => .error rcUnexpectedChar
        | _ => .ok { st with accPfx := 0, accAlpha := 0, accDigit := 0,
                             state := .vppNamePath }

  | .vppAccExtRel =>
      if 128 ≤ c.toNat || isAlphaA c then
        .ok { st with accPfx := 0, accAlpha := 0, accDigit := 0, accExt := 0,
                      state := .vppNamePath }
      else if isDigitA c then .ok st
      else match c with
        | '.' => .ok { st with state := .vppAccDotRel }
        | '/' => .ok { st with accPfx := 0, accAlpha := 0, accDigit := 0, accExt := 0,
                               state := .vppRelPath }
        | '?' => .ok { st with p := captureAcc st uri i,
                               state := .vppParamName, anchor := i }
        | '#' => .ok { st with p := captureAcc st uri i,
                               state := .vppFragment, anchor := i }
        | ':' => .error rcUnexpectedChar
        | '_' =>
            if st.accPfx ≠ 0 ∧ st.accAlpha = 0 ∧ st.accDigit = 9 ∧ st.accExt = 1 then
              .ok { st with state := .vppAccUnderRel }
            else
              .ok { st with accPfx := 0, accAlpha := 0, accDigit := 0, accExt := 0,
                            state := .vppNamePath }
        | _ => .ok { st with accPfx := 0, accAlpha := 0, accDigit := 0, accExt := 0,
                             state := .vppNamePath }

  | .vppAccSuffixRel =>
      if 128 ≤ c.toNat || isDigitA c then
        .ok { st with accPfx := 0, accAlpha := 0, accDigit := 0, accExt := 0,
                      accSfx := 0, state := .vppNamePath }
      else if isAlphaA c then .ok st
      else match c with
        | '.' => .ok { st with state := .vppAccDotRel }
        | '/' => .ok { st with accPfx := 0, accAlpha := 0, accDigit := 0, accExt := 0,
                               state := .vppRelPath }
        | '?' => .ok { st with p := captureAcc st uri i,
                               state := .vppParamName, anchor := i }
        | '#' => .ok { st with p := captureAcc st uri i,
                               state := .vppFragment, anchor := i }
        | ':' => .error rcUnexpectedChar
        | _ => .ok { st with accPfx := 0, accAlpha := 0, accDigit := 0, accExt := 0,
                             state := .vppNamePath }

  | .vppOidRel =>
      if 128 ≤ c.toNat then .ok { st with oid := 0, state := .vppNamePath }
      else if isDigitA c then
        .ok { st with oidAnchor := if st.oid = 0 then i else st.oidAnchor,
                      oid := (st.oid * 10 + digitVal c) % 2 ^ 64 }
      else match c with
        | '/' => .ok { st with oid := 0, state := .vppRelPath }
        | '?' => .ok { st with
                  p := VPathCaptureOid st.p st.oid uri st.anchor st.oidAnchor i,
                  state := .vppParamName, anchor := i }
        | '#' => .ok { st with
                  p := VPathCaptureOid st.p st.oid uri st.anchor st.oidAnchor i,
                  state := .vppFragment, anchor := i }
        | ':' => .error rcUnexpectedChar
        | _ => .ok { st with oid := 0, state := .vppNamePath }

  | .vppAccDotRel =>
      if 128 ≤ c.toNat || isAlphaA c then
        .ok { st with accPfx := 0, accAlpha := 0, accDigit := 0, accExt := 0,
                      state := .vppNamePath }
      else if isDigitA c then
        .ok { st with accExt := st.accExt + 1, state := .vppAccExtRel }
      else match c with
        | '/' => .ok { st with accPfx := 0, accAlpha := 0, accDigit := 0, accExt := 0,
                               state := .vppRelPath }
        | ':' => .error rcUnexpectedChar
        | _ => .ok { st with accPfx := 0, accAlpha := 0, accDigit := 0, accExt := 0,
                             state := .vppNamePath }

  | .vppAccUnderRel =>
      if 128 ≤ c.toNat || isDigitA c then
        .ok { st with accPfx := 0, accAlpha := 0, accDigit := 0, accExt := 0,
                      state := .vppNamePath }
      else if isAlphaA c then
        .ok { st with accSfx := st.accSfx + 1, state := .vppAccSuffixRel }
      else match c with
        | '/' => .ok { st with accPfx := 0, accAlpha := 0, accDigit := 0, accExt := 0,
                               state := .vppRelPath }
        | ':' => .error rcUnexpectedChar
        | _ => .ok { st with accPfx := 0, accAlpha := 0, accDigit := 0, accExt := 0,
                             state := .vppNamePath }

  | .vppSlash =>
      match c with
      | '/' =>
          if st.p.scheme_type = .vpuri_ncbi_file then
            .ok { st with state := .vppUNCOrMalformedPOSIXPath }
          else .ok { st with state := .vppAuthHostSpec }
      | ':' => .error rcUnexpectedChar
      | '?' => .ok { st with p := VPathCapturePath st.p uri st.anchor i .vpFullPath,
                             state := .vppParamName, anchor := i }
      | '#' => .ok { st with p := VPathCapturePath st.p uri st.anchor i .vpFullPath,
                             state := .vppFragment, anchor := i }
      | _ => .ok { st with state := .vppFullPath }

  | .vppAuthHostSpec =>
      if 128 ≤ c.toNat then .error rcUnexpectedChar
      else
        let st := { st with anchor := i }
        if isAlphaA c then .ok { st with state := .vppAuthHostNamePort }
        else if isDigitA c then
          .ok { st with ip := 0, ipv4 := st.ipv4.set 0 (digitVal c),
                        state := .vppIPv4Port }
        else match c with
          | '/' => .ok { st with state := .vppFullPath }
          | '[' => .ok { st with ip := 0, ipv6 := [0, 0, 0, 0, 0, 0, 0, 0],
                                 state := .vppIPv6Colon }
          | _ => .error rcUnexpectedChar

  | .vppHostSpec =>
      if 128 ≤ c.toNat then .error rcUnexpectedChar
      else
        let st := { st with anchor := i }
        if isAlphaA c then .ok { st with state := .vppHostNamePort }
        else if isDigitA c then
          .ok { st with ip := 0, ipv4 := st.ipv4.set 0 (digitVal c),
                        state := .vppIPv4Port }
        else match c with
          | '/' => .ok { st with state := .vppFullPath }
          | '[' => .ok { st with ip := 0, ipv6 := [0, 0, 0, 0, 0, 0, 0, 0],
                                 state := .vppIPv6Colon }
          | _ => .error rcUnexpectedChar

  | .vppAuthHostNamePort =>
      if 128 ≤ c.toNat then .error rcUnexpectedChar
      else if isAlnumA c then .ok st
      else match c with
        | '@' => .ok { st with p := VPathCaptureAuth st.p uri st.anchor i,
                               state := .vppHostSpec }
        | '.' | '+' | '-' | '_' => .ok st
        | ':' => .ok { st with p := VPathCaptureHostName st.p uri st.anchor i,
                               state := .vppPortSpec }
        | '/' => .ok { st with p := VPathCaptureHostName st.p uri st.anchor i,
                               state := .vppFullPath, anchor := i }
        | _ => .error rcUnexpectedChar

  | .vppHostNamePort =>
      if 128 ≤ c.toNat then .error rcUnexpectedChar
      else if isAlnumA c then .ok st
      else match c with
        | '.' | '+' | '-' | '_' => .ok st
        | ':' => .ok { st with p := VPathCaptureHostName st.p uri st.anchor i,
                               state := .vppPortSpec }
        | '/' => .ok { st with p := VPathCaptureHostName st.p uri st.anchor i,
                               state := .vppFullPath, anchor := i }
        | _ => .error rcUnexpectedChar

  | .vppIPv4Port =>
      if 128 ≤ c.toNat then .error rcUnexpectedChar
      else if 256 ≤ st.ipv4.getD st.ip 0 then .error rcExcessiveData
      else if isDigitA c then
        .ok { st with
              ipv4 := st.ipv4.set st.ip ((st.ipv4.getD st.ip 0 * 10 + digitVal c) % 2 ^ 32) }
      else
        let ip := st.ip + 1
        if ip = 4 then
          match c with
          | ':' =>
              match VPathCaptureIPv4 st.p st.ipv4 with
              | .error e => .error e
              | .ok p => .ok { st with ip := ip, p := p, state := .vppPortSpec }
          | '/' =>
              match VPathCaptureIPv4 st.p st.ipv4 with
              | .error e => .error e
              | .ok p => .ok { st with ip := ip, p := p, state := .vppFullPath,
                                       anchor := i }
          | _ => .error rcUnexpectedChar
        else if c = '.' then .ok { st with ip := ip, state := .vppIPv4Dot }
        else .error rcUnexpectedChar

  | .vppIPv4Dot =>
      if 128 ≤ c.toNat || !isDigitA c then .error rcUnexpectedChar
      else .ok { st with ipv4 := st.ipv4.set st.ip (digitVal c), state := .vppIPv4Port }

  | .vppIPv6Port =>
      if 128 ≤ c.toNat then .error rcUnexpectedChar
      else if 0x10000 ≤ st.ipv6.getD st.ip 0 then .error rcExcessiveData
      else if isDigitA c then
        .ok { st with
              ipv6 := st.ipv6.set st.ip ((st.ipv6.getD st.ip 0 * 16 + digitVal c) % 2 ^ 32) }
      else if isXDigitA c then
        .ok { st with
              ipv6 := st.ipv6.set st.ip ((st.ipv6.getD st.ip 0 * 16 + hexLetterVal c) % 2 ^ 32) }
      else match c with
        | ']' =>
            match VPathCaptureIPv6 st.p st.ipv6 with
            | .error e => .error e
            | .ok p => .ok { st with p := p, state := .vppPortSpecOrFullPath }
        | ':' =>
            -- the stale rc tested after this branch in the C is always 0
            if st.ip + 1 ≠ 8 then .ok { st with ip := st.ip + 1, state := .vppIPv6Colon }
            else .error rcUnexpectedChar
        | _ => .error rcUnexpectedChar

  | .vppIPv6Colon =>
      if c ≠ ':' then
        if 128 ≤ c.toNat || !isXDigitA c then .error rcUnexpectedChar
        else if isDigitA c then
          .ok { st with ipv6 := st.ipv6.set st.ip (digitVal c), state := .vppIPv6Port }
        else
          .ok { st with ipv6 := st.ipv6.set st.ip (hexLetterVal c), state := .vppIPv6Port }
      else .ok { st with state := .vppIPv6Port }

  | .vppPortSpecOrFullPath =>
      match c with
      | ':' => .ok { st with state := .vppPortSpec }
      | '/' => .ok { st with state := .vppFullPath, anchor := i }
      | _ => .error rcUnexpectedChar

  | .vppPortSpec =>
      if 128 ≤ c.toNat then .error rcUnexpectedChar
      else
        let st := { st with anchor := i }
        if isAlphaA c then .ok { st with state := .vppPortName }
        else if isDigitA c then
          .ok { st with port := digitVal c, state := .vppPortNum }
        else match c with
          | '/' => .ok { st with p := { st.p with missing_port := true },
                                 state := .vppFullPath }
          | _ => .error rcUnexpectedChar

  | .vppPortName =>
      if 128 ≤ c.toNat then .error rcUnexpectedChar
      else if isAlnumA c then .ok st
      else match c with
        | '/' => .ok { st with p := VPathCapturePortName st.p uri st.anchor i,
                               state := .vppFullPath, anchor := i }
        | _ => .error rcUnexpectedChar

  | .vppPortNum =>
      if 128 ≤ c.toNat then .error rcUnexpectedChar
      else if 0x10000 ≤ st.port then .error rcExcessiveData
      else if isDigitA c then
        .ok { st with port := (st.port * 10 + digitVal c) % 2 ^ 32 }
      else match c with
        | '/' =>
            match VPathCapturePortNum st.p st.port with
            | .error e => .error e
            | .ok p => .ok { st with p := p, state := .vppFullPath, anchor := i }
        | _ => .error rcUnexpectedChar

  | .vppNamePath =>
      match c with
      | '/' => .ok { st with state := .vppRelPath }
      | ':' => .error rcUnexpectedChar
      | '?' => .ok { st with p := VPathCapturePath st.p uri st.anchor i .vpName,
                             state := .vppParamName, anchor := i }
      | '#' => .ok { st with p := VPathCapturePath st.p uri st.anchor i .vpName,
                             state := .vppFragment, anchor := i }
      | _ => .ok st

  | .vppUNCOrMalformedPOSIXPath =>
      match c with
      | '/' => .ok { st with state := .vppFullPath, anchor := i }
      | ':' => .error rcUnexpectedChar
      | '?' => .ok { st with p := VPathCapturePath st.p uri st.anchor i .vpFullPath,
                             state := .vppParamName, anchor := i }
      | '#' => .ok { st with p := VPathCapturePath st.p uri st.anchor i .vpFullPath,
                             state := .vppFragment, anchor := i }
      | _ => .ok { st with state := .vppUNCPath }

  | .vppFullOrUNCPath =>
      if c = '/' then .ok { st with state := .vppUNCOrMalformedPOSIXPath }
      else stepRelFull uri i c { st with state := .vppFullPath }

  | .vppRelPath => stepRelFull uri i c st
  | .vppFullPath => stepRelFull uri i c st

  | .vppUNCPath =>
      match c with
      | ':' => .error rcUnexpectedChar
      | '?' => .ok { st with p := VPathCapturePath st.p uri st.anchor i .vpUNCPath,
                             state := .vppParamName, anchor := i }
      | '#' => .ok { st with p := VPathCapturePath st.p uri st.anchor i .vpUNCPath,
                             state := .vppFragment, anchor := i }
      | _ => .ok st

  | .vppParamName =>
      match c with
      | ':' | '?' => .error rcUnexpectedChar
      | '=' => .ok { st with state := .vppParamValue }
      | '#' => .ok { st with p := VPathCaptureQuery st.p uri st.anchor i,
                             state := .vppFragment, anchor := i }
      | _ => .ok st

  | .vppParamValue =>
      match c with
      | ':' | '?' | '=' => .error rcUnexpectedChar
      | '&' => .ok { st with state := .vppParamName }
      | '#' => .ok { st with p := VPathCaptureQuery st.p uri st.anchor i,
                             state := .vppFragment, anchor := i }
      | _ => .ok st

  | .vppFragment =>
      match c with
      | ':' | '?' | '#' => .error rcUnexpectedChar
      | _ => .ok st

/-- The end-of-input actions of `VPathParse` (path.c:1889-1967). -/
def parseFinish (uri : List Char) (n : Nat) (st : PSt) : Except RC VPath :=
  match st.state with
  | .vppStart => .error rcEmptyString
  | .vppAccPrefixAlphaNamePathOrScheme | .vppAccAlphaNamePath
  | .vppAccDigitNamePathOrScheme | .vppAccDigitNamePath
  | .vppAccExtNamePathOrScheme | .vppAccExtNamePath
  | .vppAccSuffixNamePath => .ok (captureAcc st uri n)
  | .vppAccDotNamePathOrScheme | .vppAccDotNamePath | .vppAccUnderNamePath
  | .vppNamePathOrScheme => .ok (VPathCapturePath st.p uri st.anchor n .vpName)
  | .vppAccOidRelOrSlash => .error rcInsufficientData
  | .vppAccPrefixAlphaRel | .vppAccAlphaRel | .vppAccDigitRel
  | .vppAccExtRel | .vppAccSuffixRel => .ok (captureAcc st uri n)
  | .vppOidRel => .ok (VPathCaptureOid st.p st.oid uri st.anchor st.oidAnchor n)
  | .vppAccDotRel | .vppAccUnderRel | .vppSlash | .vppAuthHostSpec
  | .vppHostSpec => .error rcInsufficientData
  | .vppAuthHostNamePort | .vppHostNamePort =>
      .ok (VPathCaptureHostName st.p uri st.anchor n)
  | .vppIPv4Port =>
      if st.ip + 1 = 4 then VPathCaptureIPv4 st.p st.ipv4
      else .error rcInsufficientData
  | .vppIPv4Dot | .vppIPv6Port | .vppIPv6Colon | .vppPortSpecOrFullPath
  | .vppPortSpec => .error rcInsufficientData
  | .vppPortName => .ok (VPathCapturePortName st.p uri st.anchor n)
  | .vppPortNum => VPathCapturePortNum st.p st.port
  | .vppNamePath => .ok (VPathCapturePath st.p uri st.anchor n .vpName)
  | .vppRelPath => .ok (VPathCapturePath st.p uri st.anchor n .vpRelPath)
  | .vppUNCOrMalformedPOSIXPath | .vppFullOrUNCPath | .vppFullPath =>
      .ok (VPathCapturePath st.p uri st.anchor n .vpFullPath)
  | .vppUNCPath => .ok (VPathCapturePath st.p uri st.anchor n .vpUNCPath)
  | .vppParamName | .vppParamValue => .ok (VPathCaptureQuery st.p uri st.anchor n)
  | .vppFragment => .ok (VPathCaptureFragment st.p uri st.anchor n)

/-- The character loop of `VPathParse`: runs `parseStep` over the remaining
input, threading the character index. -/
def parseLoop (uri : List Char) : List Char → Nat → PSt → Except RC PSt
  | [], _, st => .ok st
  | c :: rest, i, st =>
      match parseStep uri i c st with
      | .error e => .error e
      | .ok st' => parseLoop uri rest (i + 1) st'

/-- `VPathParse` (path.c:513): parse a flexible URI / POSIX path /
accession into a `VPath`.  On error no `VPath` is produced. -/
def VPathParse (uri : List Char) : Except RC VPath :=
  match parseLoop uri uri 0 {} with
  | .error e => .error e
  | .ok st => parseFinish uri uri.length st

/-! ## Serialisation (path.c:2101-2664) -/

/-- Decimal rendering of an unsigned value, as `string_printf`'s `%u`. -/
def natToCharsAux : Nat → Nat → List Char → List Char
  | 0, _, acc => acc
  | fuel + 1, n, acc =>
      if n < 10 then Char.ofNat (48 + n) :: acc
      else natToCharsAux fuel (n / 10) (Char.ofNat (48 + n % 10) :: acc)

/-- Decimal rendering of `n` (`%u`). -/
def natToChars (n : Nat) : List Char := natToCharsAux (n + 1) n []

/-- `RC ( rcVFS, rcPath, rcReading, rcSelf, rcInvalid )` -/
def rcSelfInvalid : RC := ⟨.rcVFS, .rcPath, .rcReading, .rcSelf, .rcInvalid⟩

/-- `RC ( rcVFS, rcPath, rcReading, rcParam, rcEmpty )` -/
def rcParamEmpty : RC := ⟨.rcVFS, .rcPath, .rcReading, .rcParam, .rcEmpty⟩

/-- `RC ( rcVFS, rcPath, rcReading, rcParam, rcNotFound )` -/
def rcParamNotFound : RC := ⟨.rcVFS, .rcPath, .rcReading, .rcParam, .rcNotFound⟩

/-- `RC ( rcVFS, rcPath, rcReading, rcType, rcIncorrect )` -/
def rcTypeIncorrect : RC := ⟨.rcVFS, .rcPath, .rcReading, .rcType, .rcIncorrect⟩

/-- `VPathGetSchemeInt` (path.c:2143): the recorded scheme text, or the
synthesized scheme for schemeless paths. -/
def VPathGetSchemeInt (p : VPath) : Except RC (List Char) :=
  if p.scheme ≠ [] then .ok p.scheme
  else match p.path_type with
  | .vpOID => .ok "ncbi-obj".data
  | .vpAccession => .ok "ncbi-acc".data
  | .vpNameOrOID | .vpNameOrAccession | .vpName | .vpRelPath | .vpFullPath =>
      if p.query ≠ [] ∨ p.fragment ≠ [] then .ok "ncbi-file".data
      else .ok "file".data
  | .vpUNCPath => .ok "ncbi-file".data
  | _ => .error rcTypeIncorrect

/-- `VPathReadHostInt` (path.c:2210): the characters printed for the host
with the given prefix.  Note the empty DNS host prints just the prefix, and
IPv6 groups are printed with `%u`, i.e. in decimal. -/
def VPathReadHostStr (p : VPath) (pfx : List Char) : List Char :=
  match p.host_type with
  | .vhDNSName => pfx ++ p.host
  | .vhIPv4 =>
      pfx ++ natToChars ((p.ipv4 >>> 24) % 256) ++ '.' ::
        (natToChars ((p.ipv4 >>> 16) % 256) ++ '.' ::
          (natToChars ((p.ipv4 >>> 8) % 256) ++ '.' :: natToChars (p.ipv4 % 256)))
  | .vhIPv6 =>
      let groups :=
        natToChars (p.ipv6.getD 0 0) ++ ':' :: (natToChars (p.ipv6.getD 1 0) ++
        ':' :: (natToChars (p.ipv6.getD 2 0) ++ ':' :: (natToChars (p.ipv6.getD 3 0) ++
        ':' :: (natToChars (p.ipv6.getD 4 0) ++ ':' :: (natToChars (p.ipv6.getD 5 0) ++
        ':' :: (natToChars (p.ipv6.getD 6 0) ++ ':' :: natToChars (p.ipv6.getD 7 0)))))))
      if pfx ≠ [] then pfx ++ '[' :: (groups ++ [']']) else pfx ++ groups

/-- `VPathReadPathInt` (path.c:2267): the path portion. -/
def VPathReadPathInt (p : VPath) : List Char :=
  match p.path_type with
  | .vpOID => natToChars p.obj_id
  | .vpAccession | .vpNameOrOID | .vpNameOrAccession | .vpName | .vpRelPath
  | .vpUNCPath | .vpFullPath => p.path
  | _ => []

/-- `VPathReadUriInt` (path.c:2310): renders the URI into a buffer.  The
model returns the character list of length `*total_read`.  Two C artifacts
are modelled exactly: the phantom `//` printed for an absent authority is
later removed by the `total -= 2` "correct for empty host spec" step, and
for a `path_type` with no case in the final switch the reported length
includes a stale segment length whose bytes are uninitialised stack
memory, modelled by the `junk` parameter. -/
def VPathReadUriInt (junk : List Char) (p : VPath) : Except RC (List Char) :=
  match VPathGetSchemeInt p with
  | .error e => .error e
  | .ok scheme =>
      let buf := scheme ++ [':']
      let authStr : List Char := if p.auth = [] then [] else '/' :: '/' :: p.auth
      let buf := buf ++ authStr
      let hasAuth := 2 < authStr.length
      let hostStr := VPathReadHostStr p (if hasAuth then ['@'] else ['/', '/'])
      let buf := buf ++ hostStr
      let hasHost := (if hasAuth then 1 else 2) < hostStr.length
      let portStr : List Char :=
        if hasHost then
          if p.portname ≠ [] then ':' :: p.portname
          else if p.portnum ≠ 0 then ':' :: natToChars p.portnum
          else if p.missing_port then [':']
          else []
        else []
      let buf := buf ++ portStr
      match p.path_type with
      | .vpOID =>
          let buf := if hasHost then buf else buf.take (buf.length - 2)
          .ok (buf ++ (if hasHost then ['/'] else []) ++
               natToChars p.obj_id ++ p.query ++ p.fragment)
      | .vpAccession | .vpNameOrOID | .vpNameOrAccession | .vpName
      | .vpRelPath | .vpUNCPath =>
          .ok (buf.take (buf.length - 2) ++ p.path ++ p.query ++ p.fragment)
      | .vpFullPath =>
          .ok (buf ++ p.path ++ p.query ++ p.fragment)
      | _ =>
          -- no case in the switch: *total_read = total + stale num_read
          let stale := if hasHost then portStr.length else hostStr.length
          .ok (buf ++ junk.take stale)

/-- `VPathMakeString` (path.c:2607): native form when the path did not come
from a URI and has no query / fragment, full URI otherwise.  The
`vpEndpoint` native case passes `&portnum` to a `%u` conversion in the C, so
its numeric-port rendering is indeterminate (modelled with `junk`). -/
def VPathMakeString (junk : List Char) (p : VPath) : Except RC (List Char) :=
  if p.from_uri || p.query ≠ [] || p.fragment ≠ [] then
    VPathReadUriInt junk p
  else
    match p.path_type with
    | .vpHostName => .ok (VPathReadHostStr p [])
    | .vpEndpoint =>
        if p.portname ≠ [] then .ok (VPathReadHostStr p [] ++ ':' :: p.portname)
        else .ok (VPathReadHostStr p [] ++ ':' :: junk)
    | _ => .ok (VPathReadPathInt p)

/-- `VPathFindParam` (path.c:2484): case-insensitive lookup of a query
parameter.  The C scans with `strcase_match` and resynchronises on `&`;
this is equivalent to splitting the query (after its leading `?`) on `&`
and comparing each entry's name, up to its first `=`, case-insensitively
with the requested name.  A parameter without `=` yields the empty value. -/
def VPathFindParam (p : VPath) (param : List Char) : Except RC (List Char) :=
  if param = [] then .error rcParamEmpty
  else if p.query.length ≤ 1 then .error rcParamNotFound
  else
    match (p.query.drop 1).splitOn '&' |>.find?
        (fun e => lowerStr (e.takeWhile (· ≠ '=')) = lowerStr param) with
    | none => .error rcParamNotFound
    | some e => .ok ((e.dropWhile (· ≠ '=')).drop 1)

/-- `VPathReadParam` (path.c:2541) with an ample buffer: the invalidity
check of `VPathReadTestSelf` followed by `VPathFindParam`. -/
def VPathReadParam (p : VPath) (param : List Char) : Except RC (List Char) :=
  if p.path_type = .vpInvalid then .error rcSelfInvalid
  else VPathFindParam p param

/-- `VPathOption ( path, vpopt_encrypted, ... )` (path.c:3213): tries query
key `enc`, then `encrypt` when the first is not found. -/
def VPathOptionEncrypted (p : VPath) : Except RC (List Char) :=
  match VPathReadParam p "enc".data with
  | .ok v => .ok v
  | .error e =>
      if e.state = .rcNotFound then VPathReadParam p "encrypt".data
      else .error e

/-- Whether an `Except` carries a success. -/
def exceptIsOk {ε α : Type} : Except ε α → Bool
  | .ok _ => true
  | .error _ => false

instance exceptDecEq {ε α : Type} [DecidableEq ε] [DecidableEq α] :
    DecidableEq (Except ε α)
  | .ok a, .ok b =>
      if h : a = b then .isTrue (by rw [h]) else .isFalse (by simp [h])
  | .ok _, .error _ => .isFalse (by simp)
  | .error _, .ok _ => .isFalse (by simp)
  | .error e, .error f =>
      if h : e = f then .isTrue (by rw [h]) else .isFalse (by simp [h])

/-! ## Resolver facade (manager.c:464-507) -/

/-- The `vfsmgr_rflag_*` bits.  The numeric bit values live in
`vfs/manager.h`, which is not part of this source snapshot; modelled from
the spec as the independent flag set {no_acc, no_acc_local, no_acc_remote,
kdb_acc}. -/
structure ResolveFlags where
  noAcc : Bool := false
  noAccLocal : Bool := false
  noAccRemote : Bool := false
  kdbAcc : Bool := false
deriving Repr, DecidableEq

/-- The protocol constant the facade hands to `VResolverRemote`. -/
inductive RemoteProtocol | eProtocolHttp
deriving Repr, DecidableEq

/-- `RC ( rcVFS, rcMgr, rcResolving, rcSRA, rcNotAvailable )`; the C emits
it silently for schemeless paths and loudly for `ncbi-acc:` ones, a logging
distinction the model drops. -/
def rcSraNotAvailable : RC := ⟨.rcVFS, .rcMgr, .rcResolving, .rcSRA, .rcNotAvailable⟩

/-- Result of the resolver facade plus the record of whether (and with
which protocol) the remote oracle was consulted. -/
structure ResolverOutcome where
  result : Except RC (Option VPath)
  remoteConsulted : Option RemoteProtocol
deriving Repr, DecidableEq

/-- `VFSManagerResolvePathResolver` (manager.c:464): consult the resolver
oracle.  `localRes` / `remoteRes` are the oracle answers `VResolverLocal` /
`VResolverRemote` would give for this path; the outcome records whether the
remote oracle was actually consulted.  Note the fall-through to the remote
oracle happens whenever the local consultation did not succeed (`not_done`
stays true on every nonzero `rc`), not only on `rcNotFound`. -/
def VFSManagerResolvePathResolver (flags : ResolveFlags)
    (localRes remoteRes : Except RC VPath) : ResolverOutcome :=
  if flags.noAcc then
    { result := .error rcSraNotAvailable, remoteConsulted := none }
  else if flags.noAccLocal = false then
    match localRes with
    | .ok p => { result := .ok (some p), remoteConsulted := none }
    | .error e =>
        if flags.noAccRemote = false then
          { result := remoteRes.map some, remoteConsulted := some .eProtocolHttp }
        else
          { result := .error e, remoteConsulted := none }
  else if flags.noAccRemote = false then
    { result := remoteRes.map some, remoteConsulted := some .eProtocolHttp }
  else
    -- rc stayed 0 and *out_path stayed NULL
    { result := .ok none, remoteConsulted := none }

/-! ## Open-for-read decryption probe (manager.c:696-850) -/

/-- The stream handed back by the decryption probe: the raw file (with or
without the 64 KiB pre-read buffer inserted when random access is
unsupported), or a decryption stage (AES stage under a 256 MiB read buffer,
or the WGA stage). -/
inductive KFileOut
  | raw (buffered : Bool)
  | aes (buffered : Bool)
  | wga (buffered : Bool)
deriving Repr, DecidableEq

/-- Outcomes of the external collaborators the probe calls, in call order.
`none` means the call returns `rc == 0`.  `isEnc` / `isWgaEnc` are the
results of the envelope-magic tests `KFileIsEnc` / `KFileIsWGAEnc` on the
4 KiB prefix (whose implementations live outside this snapshot). -/
structure DecChecks where
  randomAccessRC : Option RC := none
  bufFileRC : Option RC := none
  readAllRC : Option RC := none
  isEnc : Bool := false
  isWgaEnc : Bool := false
  getKeyRC : Option RC := none
  keyInitRC : Option RC := none
  encFileRC : Option RC := none
  bigBufRC : Option RC := none
deriving Repr, DecidableEq

/-- `VFSManagerOpenFileReadDecryption` (manager.c:696): when the path does
not carry the `encrypted` option and decryption was not forced, the raw
file is returned untouched; otherwise a 4 KiB prefix is probed for the two
envelope magics, and when neither matches the raw (possibly pre-read
buffered) stream is returned with `rc == 0`. -/
def VFSManagerOpenFileReadDecryption (p : VPath) (forceDecrypt : Bool)
    (o : DecChecks) : Except RC KFileOut :=
  let hasEncOpt := exceptIsOk (VPathOptionEncrypted p)
  if hasEncOpt = false ∧ forceDecrypt = false then .ok (.raw false)
  else
    let pre : Except RC Bool :=
      match o.randomAccessRC with
      | none => .ok false
      | some rc =>
          if rc.state = .rcUnsupported then
            match o.bufFileRC with
            | none => .ok true
            | some e => .error e
          else .error rc
    match pre with
    | .error e => .error e
    | .ok buffered =>
        match o.readAllRC with
        | some e => .error e
        | none =>
            if o.isEnc then
              match o.getKeyRC with
              | some e => .error e
              | none =>
                  match o.keyInitRC with
                  | some e => .error e
                  | none =>
                      match o.encFileRC with
                      | some e => .error e
                      | none =>
                          match o.bigBufRC with
                          | some e => .error e
                          | none => .ok (.aes buffered)
            else if o.isWgaEnc then
              match o.getKeyRC with
              | some e => .error e
              | none =>
                  match o.encFileRC with
                  | some e => .error e
                  | none => .ok (.wga buffered)
            else
              -- not encrypted in a manner we can decrypt: give back the raw
              -- file (possibly buffered) with another reference
              .ok (.raw buffered)

/-! ## Manager singleton (manager.c:121-151, 2106-2172) -/

/-- The process-wide state around the static `singleton` slot: the slot
(holding the identity of the live manager, if any), its strong reference
count, and a fresh-identity counter for new constructions. -/
structure MgrWorld where
  slot : Option Nat := none
  refcount : Nat := 0
  nextId : Nat := 0
deriving Repr, DecidableEq

/-- `RC ( rcVFS, rcMgr, rcConstructing, rcMemory, rcExhausted )`; stands in
for the various construction failures (all leave the slot empty). -/
def rcMgrConstructFailed : RC := ⟨.rcVFS, .rcMgr, .rcConstructing, .rcMemory, .rcExhausted⟩

/-- `VFSManagerMakeFromKfg` (manager.c:2106): when the static slot is
occupied, add a strong reference and return the same instance; otherwise
construct (collapsed to the oracle `constructOk`: cwd / config / cipher /
keystore acquisition) and on success store the new instance in the slot
with one reference. -/
def VFSManagerMakeFromKfg (w : MgrWorld) (constructOk : Bool) :
    Except RC Nat × MgrWorld :=
  match w.slot with
  | some m => (.ok m, { w with refcount := w.refcount + 1 })
  | none =>
      if constructOk then
        (.ok w.nextId,
         { slot := some w.nextId, refcount := 1, nextId := w.nextId + 1 })
      else (.error rcMgrConstructFailed, w)

/-- `VFSManagerRelease` (manager.c:182) + `VFSManagerDestroy`
(manager.c:128): drop one strong reference; whacking the last one runs the
destructor, which ends with `singleton = NULL`. -/
def VFSManagerRelease (w : MgrWorld) : MgrWorld :=
  if w.refcount ≤ 1 then { w with slot := none, refcount := 0 }
  else { w with refcount := w.refcount - 1 }

/-! ## UpdateKryptoPassword validation (manager.c:2252-2272) -/

/-- `VFS_KRYPTO_PASSWORD_MAX_SIZE` (manager.c:88). -/
def VFS_KRYPTO_PASSWORD_MAX_SIZE : Nat := 4096

/-- `RC ( rcVFS, rcEncryptionKey, rcUpdating, rcParam, rcNull )` -/
def rcUpdateParamNull : RC := ⟨.rcVFS, .rcEncryptionKeyT, .rcUpdating, .rcParam, .rcNull⟩

/-- `RC ( rcVFS, rcEncryptionKey, rcUpdating, rcSize, rcExcessive )` -/
def rcUpdateSizeExcessive : RC := ⟨.rcVFS, .rcEncryptionKeyT, .rcUpdating, .rcSize, .rcExcessive⟩

/-- `RC ( rcVFS, rcEncryptionKey, rcUpdating, rcEncryptionKey, rcInvalid )` -/
def rcUpdateKeyInvalid : RC :=
  ⟨.rcVFS, .rcEncryptionKeyT, .rcUpdating, .rcEncryptionKeyO, .rcInvalid⟩

/-- `VFSManagerUpdateKryptoPassword` (manager.c:2252), validation stage.
`password` is the byte list (`10` = LF, `13` = CR).  The argument checks run
in the C order — null/empty, then size, then embedded line breaks — before
any filesystem access; everything afterwards (locating the configured
password file, writing the `*.tmp` staging file, renaming it over the old
file) is abstracted as the continuation `rest`, the only part that can
touch the password file. -/
def VFSManagerUpdateKryptoPassword (password : List Nat)
    (rest : Except RC Unit) : Except RC Unit :=
  if password = [] then .error rcUpdateParamNull
  else if VFS_KRYPTO_PASSWORD_MAX_SIZE < password.length then
    .error rcUpdateSizeExcessive
  else if password.contains 10 || password.contains 13 then
    .error rcUpdateKeyInvalid
  else rest

/-! ## Digit-run accumulators (for the universal parser theorems) -/

/-- `foldl` of decimal digits onto a running value (no overflow). -/
def digitsValFrom (v : Nat) (ds : List Char) : Nat :=
  ds.foldl (fun a c => a * 10 + digitVal c) v

/-- The numeric value of a decimal digit string. -/
def digitsVal (ds : List Char) : Nat := digitsValFrom 0 ds

/-- Number of significant digits: the length after stripping leading `0`s. -/
def sigDigits (ds : List Char) : Nat := (ds.dropWhile (fun c => c = '0')).length

/-- Number of leading `0`s. -/
def leadZeros (ds : List Char) : Nat := (ds.takeWhile (fun c => c = '0')).length

/-- One step of the `uint64_t` oid accumulation of `vppOidRel`. -/
def oidStepV (v : Nat) (c : Char) : Nat := (v * 10 + digitVal c) % 2 ^ 64

/-- The oid accumulated by `vppOidRel` over a digit run. -/
def oidFoldV (v : Nat) (ds : List Char) : Nat := ds.foldl oidStepV v

/-- The `oid_anchor` maintained by `vppOidRel` over a digit run: it chases
the current index for as long as the accumulated value is zero. -/
def oidFoldA (v a i : Nat) : List Char → Nat
  | [] => a
  | c :: cs => oidFoldA (oidStepV v c) (if v = 0 then i else a) (i + 1) cs

/-- Numeric value of a hex digit character as read by the IPv6 states. -/
def hexDigitVal (c : Char) : Nat :=
  if isDigitA c then digitVal c else hexLetterVal c

/-- `foldl` of hex digits onto a running value. -/
def hexValFrom (v : Nat) (ds : List Char) : Nat :=
  ds.foldl (fun a c => a * 16 + hexDigitVal c) v

/-- The numeric value of a hex digit string. -/
def hexVal (ds : List Char) : Nat := hexValFrom 0 ds

/-- The `path_type`s whose path portion is the captured `path` text (the
shared group of `VPathReadPathInt`). -/
def isPathish : VPPathType → Bool
  | .vpAccession | .vpNameOrOID | .vpNameOrAccession | .vpName | .vpRelPath
  | .vpUNCPath | .vpFullPath => true
  | _ => false

/-- The parser states reachable only after a `:` captured a scheme (so
`from_uri` is already `true` there). -/
def statePostScheme : VPathParseState → Bool
  | .vppAccOidRelOrSlash | .vppAccPrefixAlphaRel | .vppAccAlphaRel
  | .vppAccDigitRel | .vppAccExtRel | .vppAccSuffixRel | .vppOidRel
  | .vppAccDotRel | .vppAccUnderRel | .vppSlash | .vppAuthHostSpec
  | .vppAuthHostNamePort | .vppHostSpec | .vppHostNamePort | .vppIPv4Port
  | .vppIPv4Dot | .vppIPv6Port | .vppIPv6Colon | .vppPortSpecOrFullPath
  | .vppPortSpec | .vppPortName | .vppPortNum => true
  | _ => false

/-- The query / fragment states (entered by `?` or `#`, after a path
capture fixed the `path_type`). -/
def stateQF : VPathParseState → Bool
  | .vppParamName | .vppParamValue | .vppFragment => true
  | _ => false

/-- The scheme-synthesis table as worded by the specification (this one
definition follows the spec's words, for comparison against
`VPathGetSchemeInt`): OID gets `ncbi-obj`, Accession gets `ncbi-acc`, a
name or path with a query or fragment gets `ncbi-file`, anything else gets
`file`. -/
def specSynthScheme (p : VPath) : List Char :=
  match p.path_type with
  | .vpOID => "ncbi-obj".data
  | .vpAccession => "ncbi-acc".data
  | _ => if p.query ≠ [] ∨ p.fragment ≠ [] then "ncbi-file".data
         else "file".data

/-- Parse invariant: a path that has not been given a scheme still has the
zero scheme type, sits outside the post-scheme states, and — once in a
query / fragment state — carries a path-ish `path_type`. -/
def PInv (st : PSt) : Prop :=
  st.p.from_uri = false →
    st.p.scheme_type = .vpuri_none ∧
    statePostScheme st.state = false ∧
    (stateQF st.state = true → isPathish st.p.path_type = true)

/-! ## Theorems -/

/-! ### Helper lemmas on characters, lists and accumulators -/

theorem char_eq_of_toNat_eq {c d : Char} (h : c.toNat = d.toNat) : c = d := by
  have := congrArg Char.ofNat h
  rwa [Char.ofNat_toNat, Char.ofNat_toNat] at this

theorem isDigitA_toNat (c : Char) (h : isDigitA c = true) :
    48 ≤ c.toNat ∧ c.toNat ≤ 57 := by
  simpa [isDigitA] using h

theorem isDigitA_not128 (c : Char) (h : isDigitA c = true) : ¬ 128 ≤ c.toNat := by
  have := isDigitA_toNat c h; omega

theorem isDigitA_not_alpha (c : Char) (h : isDigitA c = true) : isAlphaA c = false := by
  have := isDigitA_toNat c h; simp [isAlphaA]; omega

theorem digitVal_lt10 (c : Char) (h : isDigitA c = true) : digitVal c < 10 := by
  have := isDigitA_toNat c h; simp [digitVal]; omega

theorem digitVal_zero_iff (c : Char) (h : isDigitA c = true) :
    digitVal c = 0 ↔ c = '0' := by
  have hn := isDigitA_toNat c h
  have h0 : ('0' : Char).toNat = 48 := rfl
  constructor
  · intro hz
    exact char_eq_of_toNat_eq (by simp [digitVal] at hz; omega)
  · intro hc; subst hc; rfl

theorem getD_set_self (l : List Nat) (n : Nat) (h : n < l.length) (v : Nat) :
    (l.set n v).getD n 0 = v := by
  induction l generalizing n with
  | nil => simp at h
  | cons a t ih =>
      cases n with
      | zero => simp [List.set, List.getD]
      | succ m => simpa [List.set, List.getD] using ih m (by simpa using h)

theorem set_getD_self (l : List Nat) (n : Nat) (h : n < l.length) :
    l.set n (l.getD n 0) = l := by
  induction l generalizing n with
  | nil => simp at h
  | cons a t ih =>
      cases n with
      | zero => simp [List.set, List.getD]
      | succ m => simpa [List.set, List.getD] using ih m (by simpa using h)

theorem set_set_self (l : List Nat) (n : Nat) (v w : Nat) :
    (l.set n v).set n w = l.set n w := List.set_set v w l n

theorem digitsValFrom_cons (v : Nat) (c : Char) (t : List Char) :
    digitsValFrom v (c :: t) = digitsValFrom (v * 10 + digitVal c) t := rfl

theorem digitsValFrom_le (v : Nat) (ds : List Char) : v ≤ digitsValFrom v ds := by
  induction ds generalizing v with
  | nil => exact le_refl v
  | cons c t ih =>
      rw [digitsValFrom_cons]
      exact le_trans (by omega) (ih (v * 10 + digitVal c))

theorem digitsVal_cons (c : Char) (t : List Char) :
    digitsVal (c :: t) = digitsValFrom (digitVal c) t := by
  have : (0 : Nat) * 10 + digitVal c = digitVal c := by omega
  rw [digitsVal, digitsValFrom_cons, this]

theorem digitsValFrom_all_zero (v : Nat) (ds : List Char)
    (h : ∀ c ∈ ds, c = '0') (hv : v = 0) : digitsValFrom v ds = 0 := by
  induction ds generalizing v with
  | nil => simpa [digitsValFrom]
  | cons c t ih =>
      rw [digitsValFrom_cons]
      have hc : c = '0' := h c (List.mem_cons_self c t)
      subst hc hv
      exact ih 0 (fun x hx => h x (List.mem_cons_of_mem _ hx)) rfl

theorem sigDigits_add_leadZeros (ds : List Char) :
    sigDigits ds + leadZeros ds = ds.length := by
  rw [sigDigits, leadZeros]
  have := congrArg List.length (List.takeWhile_append_dropWhile
    (p := fun c => c = '0') (l := ds))
  simp only [List.length_append] at this
  omega

theorem digitsVal_ne_zero_dropWhile (ds : List Char)
    (h : digitsVal ds ≠ 0) : ds.dropWhile (fun c => c = '0') ≠ [] := by
  intro hall
  exact h (digitsValFrom_all_zero 0 ds
    (fun x hx => by simpa using List.dropWhile_eq_nil_iff.mp hall x hx) rfl)

theorem oidStepV_no_wrap (v : Nat) (c : Char) (h : v * 10 + digitVal c < 2 ^ 64) :
    oidStepV v c = v * 10 + digitVal c := Nat.mod_eq_of_lt h

theorem oidFoldV_eq_digitsValFrom (ds : List Char) (v : Nat)
    (h : digitsValFrom v ds < 2 ^ 64) : oidFoldV v ds = digitsValFrom v ds := by
  induction ds generalizing v with
  | nil => rfl
  | cons c t ih =>
      have hstep : v * 10 + digitVal c < 2 ^ 64 := by
        have h1 := digitsValFrom_le (v * 10 + digitVal c) t
        rw [digitsValFrom_cons] at h
        omega
      show oidFoldV (oidStepV v c) t = _
      rw [oidStepV_no_wrap v c hstep, digitsValFrom_cons]
      exact ih _ (by rwa [digitsValFrom_cons] at h)

theorem oidFoldA_nonzero (ds : List Char) (v a i : Nat) (hv : v ≠ 0)
    (h : digitsValFrom v ds < 2 ^ 64) : oidFoldA v a i ds = a := by
  induction ds generalizing v a i with
  | nil => rfl
  | cons c t ih =>
      have hstep : v * 10 + digitVal c < 2 ^ 64 := by
        have h1 := digitsValFrom_le (v * 10 + digitVal c) t
        rw [digitsValFrom_cons] at h
        omega
      show oidFoldA (oidStepV v c) (if v = 0 then i else a) (i + 1) t = a
      rw [oidStepV_no_wrap v c hstep, if_neg hv]
      exact ih _ _ _ (by omega) (by rwa [digitsValFrom_cons] at h)

theorem oidFoldA_from_zero (ds : List Char) (a i : Nat)
    (hdig : ∀ c ∈ ds, isDigitA c = true)
    (h : digitsVal ds < 2 ^ 64) :
    oidFoldA 0 a i ds =
      if ds = [] then a else i + min (leadZeros ds) (ds.length - 1) := by
  induction ds generalizing a i with
  | nil => rfl
  | cons c t ih =>
      have hc : isDigitA c = true := hdig c (List.mem_cons_self c t)
      have hstep : oidStepV 0 c = digitVal c := by
        have := digitVal_lt10 c hc
        rw [oidStepV_no_wrap 0 c (by omega)]; omega
      have hfrom : digitsValFrom (digitVal c) t < 2 ^ 64 := by
        rw [← digitsVal_cons]; exact h
      show oidFoldA (oidStepV 0 c) i (i + 1) t = _
      rw [hstep]
      by_cases hz : digitVal c = 0
      · -- leading zero: keep chasing
        have hc0 : c = '0' := (digitVal_zero_iff c hc).mp hz
        have htval : digitsVal t < 2 ^ 64 := by
          rw [digitsVal]; rw [hz] at hfrom; exact hfrom
        rw [hz, ih i (i + 1) (fun x hx => hdig x (List.mem_cons_of_mem _ hx)) htval]
        subst hc0
        by_cases ht : t = []
        · subst ht; simp [leadZeros]
        · have hlen : 1 ≤ t.length := by
            cases t with
            | nil => exact absurd rfl ht
            | cons _ _ => simp
          have hlz : leadZeros ('0' :: t) = 1 + leadZeros t := by
            simp [leadZeros, List.takeWhile]; omega
          simp only [if_neg ht, if_neg (List.cons_ne_nil '0' t), hlz,
            List.length_cons]
          omega
      · -- first significant digit here: the anchor stays at i
        rw [oidFoldA_nonzero t (digitVal c) i (i + 1) hz hfrom]
        have hc0 : ¬ c = '0' := fun hcc => hz (by subst hcc; rfl)
        have hlz : leadZeros (c :: t) = 0 := by
          simp [leadZeros, List.takeWhile, hc0]
        simp [hlz, List.cons_ne_nil]

/-! ### Run lemmas for the parser loop -/

theorem parseLoop_append (uri l1 l2 : List Char) (i : Nat) (st : PSt) :
    parseLoop uri (l1 ++ l2) i st =
      (parseLoop uri l1 i st).bind
        (fun st' => parseLoop uri l2 (i + l1.length) st') := by
  induction l1 generalizing i st with
  | nil => simp [parseLoop, Except.bind]
  | cons c t ih =>
      simp only [List.cons_append, parseLoop]
      cases parseStep uri i c st with
      | error e => rfl
      | ok st' =>
          change parseLoop uri (t ++ l2) (i + 1) st' = _
          rw [ih]
          congr 1
          funext st''
          congr 1
          simp only [List.length_cons]
          omega

theorem parseLoop_oidRel (uri : List Char) (ds : List Char) (i : Nat) (st : PSt)
    (hst : st.state = .vppOidRel) (hds : ∀ c ∈ ds, isDigitA c = true) :
    parseLoop uri ds i st =
      .ok { st with oid := oidFoldV st.oid ds,
                    oidAnchor := oidFoldA st.oid st.oidAnchor i ds } := by
  induction ds generalizing i st with
  | nil => rfl
  | cons c t ih =>
      have hc : isDigitA c = true := hds c (List.mem_cons_self c t)
      have h128 : ¬ 128 ≤ c.toNat := isDigitA_not128 c hc
      have hstep : parseStep uri i c st =
          .ok { st with oidAnchor := if st.oid = 0 then i else st.oidAnchor,
                        oid := (st.oid * 10 + digitVal c) % 2 ^ 64 } := by
        rw [parseStep.eq_def, hst]
        simp [h128, hc, hst]
      have hl : parseLoop uri (c :: t) i st =
          parseLoop uri t (i + 1)
            { st with oidAnchor := if st.oid = 0 then i else st.oidAnchor,
                      oid := (st.oid * 10 + digitVal c) % 2 ^ 64 } := by
        simp only [parseLoop, hstep]
      rw [hl, ih (i + 1)
        { st with oidAnchor := if st.oid = 0 then i else st.oidAnchor,
                  oid := (st.oid * 10 + digitVal c) % 2 ^ 64 }
        hst (fun x hx => hds x (List.mem_cons_of_mem c hx))]
      rfl

theorem isXDigitA_toNat (c : Char) (h : isXDigitA c = true) :
    (48 ≤ c.toNat ∧ c.toNat ≤ 57) ∨ (65 ≤ c.toNat ∧ c.toNat ≤ 70) ∨
    (97 ≤ c.toNat ∧ c.toNat ≤ 102) := by
  have h2 : (48 ≤ c.toNat ∧ c.toNat ≤ 57 ∨ 65 ≤ c.toNat ∧ c.toNat ≤ 70) ∨
      97 ≤ c.toNat ∧ c.toNat ≤ 102 := by
    simpa [isXDigitA, isDigitA] using h
  tauto

theorem isXDigitA_not128 (c : Char) (h : isXDigitA c = true) : ¬ 128 ≤ c.toNat := by
  rcases isXDigitA_toNat c h with h | h | h <;> omega

theorem hexDigitVal_lt16 (c : Char) (h : isXDigitA c = true) : hexDigitVal c < 16 := by
  rcases isXDigitA_toNat c h with h1 | h1 | h1
  · rw [hexDigitVal, if_pos (by simp [isDigitA]; omega)]
    simp [digitVal]; omega
  · rw [hexDigitVal, if_neg (by simp [isDigitA]; omega)]
    simp only [hexLetterVal]
    rw [if_neg (by omega)]
    omega
  · rw [hexDigitVal, if_neg (by simp [isDigitA]; omega)]
    simp only [hexLetterVal]
    rw [if_pos (by omega)]
    omega

theorem hexValFrom_cons (v : Nat) (c : Char) (t : List Char) :
    hexValFrom v (c :: t) = hexValFrom (v * 16 + hexDigitVal c) t := rfl

theorem hexValFrom_le (v : Nat) (ds : List Char) : v ≤ hexValFrom v ds := by
  induction ds generalizing v with
  | nil => exact le_refl v
  | cons c t ih =>
      rw [hexValFrom_cons]
      exact le_trans (by omega) (ih (v * 16 + hexDigitVal c))

theorem parseStep_ipv4_entry_excessive (uri : List Char) (j : Nat) (e : Char)
    (st : PSt) (hst : st.state = .vppIPv4Port) (he : ¬ 128 ≤ e.toNat)
    (hge : 256 ≤ st.ipv4.getD st.ip 0) :
    parseStep uri j e st = .error rcExcessiveData := by
  have hge' : 256 ≤ (st.ipv4[st.ip]?).getD 0 := by simpa using hge
  rw [parseStep.eq_def, hst]
  simp [he, hge']

theorem parseStep_ipv6_entry_excessive (uri : List Char) (j : Nat) (e : Char)
    (st : PSt) (hst : st.state = .vppIPv6Port) (he : ¬ 128 ≤ e.toNat)
    (hge : 0x10000 ≤ st.ipv6.getD st.ip 0) :
    parseStep uri j e st = .error rcExcessiveData := by
  have hge' : 0x10000 ≤ (st.ipv6[st.ip]?).getD 0 := by simpa using hge
  rw [parseStep.eq_def, hst]
  simp [he, hge']

theorem parseStep_port_entry_excessive (uri : List Char) (j : Nat) (e : Char)
    (st : PSt) (hst : st.state = .vppPortNum) (he : ¬ 128 ≤ e.toNat)
    (hge : 0x10000 ≤ st.port) :
    parseStep uri j e st = .error rcExcessiveData := by
  rw [parseStep.eq_def, hst]
  simp [he, hge]

theorem parseLoop_ipv4_excessive (uri ds rest : List Char) (i : Nat) (st : PSt)
    (hst : st.state = .vppIPv4Port) (hds : ∀ c ∈ ds, isDigitA c = true)
    (hip : st.ip < st.ipv4.length)
    (hv : st.ipv4.getD st.ip 0 < 256)
    (hbig : 256 ≤ digitsValFrom (st.ipv4.getD st.ip 0) ds) :
    parseLoop uri (ds ++ '.' :: rest) i st = .error rcExcessiveData := by
  induction ds generalizing i st with
  | nil =>
      simp only [digitsValFrom, List.foldl_nil] at hbig
      omega
  | cons d t ih =>
      have hd : isDigitA d = true := hds d (List.mem_cons_self d t)
      have h128 : ¬ 128 ≤ d.toNat := isDigitA_not128 d hd
      have h10 : digitVal d < 10 := digitVal_lt10 d hd
      have hvx : (st.ipv4[st.ip]?).getD 0 < 256 := by simpa using hv
      have hnot : ¬ 256 ≤ (st.ipv4[st.ip]?).getD 0 := by omega
      have hmod : ((st.ipv4[st.ip]?).getD 0 * 10 + digitVal d) % 4294967296 =
          (st.ipv4[st.ip]?).getD 0 * 10 + digitVal d :=
        Nat.mod_eq_of_lt (by omega)
      have hstep : parseStep uri i d st =
          .ok { st with ipv4 := st.ipv4.set st.ip (st.ipv4.getD st.ip 0 * 10 + digitVal d) } := by
        rw [parseStep.eq_def, hst]
        simp [h128, hnot, hd, hmod]
      have hl : parseLoop uri ((d :: t) ++ '.' :: rest) i st =
          parseLoop uri (t ++ '.' :: rest) (i + 1)
            { st with ipv4 := st.ipv4.set st.ip (st.ipv4.getD st.ip 0 * 10 + digitVal d) } := by
        simp only [List.cons_append, List.append_eq, parseLoop, hstep]
      have hgd : (st.ipv4.set st.ip (st.ipv4.getD st.ip 0 * 10 + digitVal d)).getD st.ip 0 =
          st.ipv4.getD st.ip 0 * 10 + digitVal d :=
        getD_set_self _ _ hip _
      have hbig' : 256 ≤ digitsValFrom (st.ipv4.getD st.ip 0 * 10 + digitVal d) t := by
        rwa [digitsValFrom_cons] at hbig
      by_cases hlt : st.ipv4.getD st.ip 0 * 10 + digitVal d < 256
      · have hip' : st.ip <
            (st.ipv4.set st.ip (st.ipv4.getD st.ip 0 * 10 + digitVal d)).length := by
          rw [List.length_set]; exact hip
        have hv' :
            (st.ipv4.set st.ip (st.ipv4.getD st.ip 0 * 10 + digitVal d)).getD st.ip 0 < 256 := by
          rw [hgd]; exact hlt
        have hbig'' : 256 ≤ digitsValFrom
            ((st.ipv4.set st.ip (st.ipv4.getD st.ip 0 * 10 + digitVal d)).getD st.ip 0) t := by
          rw [hgd]; exact hbig'
        rw [hl]
        exact ih (i + 1)
          { st with ipv4 := st.ipv4.set st.ip (st.ipv4.getD st.ip 0 * 10 + digitVal d) }
          hst (fun x hx => hds x (List.mem_cons_of_mem d hx)) hip' hv' hbig''
      · have hge' :
            256 ≤ (st.ipv4.set st.ip (st.ipv4.getD st.ip 0 * 10 + digitVal d)).getD st.ip 0 := by
          rw [hgd]; omega
        rw [hl]
        cases t with
        | nil =>
            have herr := parseStep_ipv4_entry_excessive uri (i + 1) '.'
              { st with ipv4 := st.ipv4.set st.ip (st.ipv4.getD st.ip 0 * 10 + digitVal d) }
              hst (by decide) hge'
            simp only [List.nil_append, parseLoop, herr]
        | cons e u =>
            have hed : isDigitA e = true := hds e (by simp)
            have herr := parseStep_ipv4_entry_excessive uri (i + 1) e
              { st with ipv4 := st.ipv4.set st.ip (st.ipv4.getD st.ip 0 * 10 + digitVal d) }
              hst (isDigitA_not128 e hed) hge'
            simp only [List.cons_append, parseLoop, herr]

theorem parseLoop_ipv6_excessive (uri hs rest : List Char) (i : Nat) (st : PSt)
    (hst : st.state = .vppIPv6Port) (hhs : ∀ c ∈ hs, isXDigitA c = true)
    (hip : st.ip < st.ipv6.length)
    (hv : st.ipv6.getD st.ip 0 < 0x10000)
    (hbig : 0x10000 ≤ hexValFrom (st.ipv6.getD st.ip 0) hs) :
    parseLoop uri (hs ++ ']' :: rest) i st = .error rcExcessiveData := by
  induction hs generalizing i st with
  | nil =>
      simp only [hexValFrom, List.foldl_nil] at hbig
      omega
  | cons d t ih =>
      have hd : isXDigitA d = true := hhs d (List.mem_cons_self d t)
      have h128 : ¬ 128 ≤ d.toNat := isXDigitA_not128 d hd
      have h16 : hexDigitVal d < 16 := hexDigitVal_lt16 d hd
      have hvx : (st.ipv6[st.ip]?).getD 0 < 0x10000 := by simpa using hv
      have hnot : ¬ 0x10000 ≤ (st.ipv6[st.ip]?).getD 0 := by omega
      have hstep : parseStep uri i d st =
          .ok { st with ipv6 := st.ipv6.set st.ip (st.ipv6.getD st.ip 0 * 16 + hexDigitVal d) } := by
        rw [parseStep.eq_def, hst]
        by_cases hdd : isDigitA d = true
        · have hm : ((st.ipv6[st.ip]?).getD 0 * 16 + digitVal d) % 4294967296 =
              (st.ipv6[st.ip]?).getD 0 * 16 + digitVal d := by
            have := digitVal_lt10 d hdd
            exact Nat.mod_eq_of_lt (by omega)
          simp [h128, hnot, hdd, hm, hexDigitVal]
        · have hdl : hexLetterVal d < 16 := by
            have h2 := hexDigitVal_lt16 d hd
            rwa [hexDigitVal, if_neg hdd] at h2
          have hm : ((st.ipv6[st.ip]?).getD 0 * 16 + hexLetterVal d) % 4294967296 =
              (st.ipv6[st.ip]?).getD 0 * 16 + hexLetterVal d :=
            Nat.mod_eq_of_lt (by omega)
          simp [h128, hnot, hdd, hd, hm, hexDigitVal]
      have hl : parseLoop uri ((d :: t) ++ ']' :: rest) i st =
          parseLoop uri (t ++ ']' :: rest) (i + 1)
            { st with ipv6 := st.ipv6.set st.ip (st.ipv6.getD st.ip 0 * 16 + hexDigitVal d) } := by
        simp only [List.cons_append, List.append_eq, parseLoop, hstep]
      have hgd : (st.ipv6.set st.ip (st.ipv6.getD st.ip 0 * 16 + hexDigitVal d)).getD st.ip 0 =
          st.ipv6.getD st.ip 0 * 16 + hexDigitVal d :=
        getD_set_self _ _ hip _
      have hbig' : 0x10000 ≤ hexValFrom (st.ipv6.getD st.ip 0 * 16 + hexDigitVal d) t := by
        rwa [hexValFrom_cons] at hbig
      by_cases hlt : st.ipv6.getD st.ip 0 * 16 + hexDigitVal d < 0x10000
      · have hip' : st.ip <
            (st.ipv6.set st.ip (st.ipv6.getD st.ip 0 * 16 + hexDigitVal d)).length := by
          rw [List.length_set]; exact hip
        have hv' :
            (st.ipv6.set st.ip (st.ipv6.getD st.ip 0 * 16 + hexDigitVal d)).getD st.ip 0
              < 0x10000 := by
          rw [hgd]; exact hlt
        have hbig'' : 0x10000 ≤ hexValFrom
            ((st.ipv6.set st.ip (st.ipv6.getD st.ip 0 * 16 + hexDigitVal d)).getD st.ip 0) t := by
          rw [hgd]; exact hbig'
        rw [hl]
        exact ih (i + 1)
          { st with ipv6 := st.ipv6.set st.ip (st.ipv6.getD st.ip 0 * 16 + hexDigitVal d) }
          hst (fun x hx => hhs x (List.mem_cons_of_mem d hx)) hip' hv' hbig''
      · have hge' : 0x10000 ≤
            (st.ipv6.set st.ip (st.ipv6.getD st.ip 0 * 16 + hexDigitVal d)).getD st.ip 0 := by
          rw [hgd]; omega
        rw [hl]
        cases t with
        | nil =>
            have herr := parseStep_ipv6_entry_excessive uri (i + 1) ']'
              { st with ipv6 := st.ipv6.set st.ip (st.ipv6.getD st.ip 0 * 16 + hexDigitVal d) }
              hst (by decide) hge'
            simp only [List.nil_append, parseLoop, herr]
        | cons e u =>
            have hed : isXDigitA e = true := hhs e (by simp)
            have herr := parseStep_ipv6_entry_excessive uri (i + 1) e
              { st with ipv6 := st.ipv6.set st.ip (st.ipv6.getD st.ip 0 * 16 + hexDigitVal d) }
              hst (isXDigitA_not128 e hed) hge'
            simp only [List.cons_append, parseLoop, herr]

theorem parseLoop_portNum_run (uri ds : List Char) (i : Nat) (st : PSt)
    (hst : st.state = .vppPortNum) (hds : ∀ c ∈ ds, isDigitA c = true)
    (hv : st.port < 0x10000) :
    (digitsValFrom st.port ds < 0x10000 ∧
      parseLoop uri ds i st = .ok { st with port := digitsValFrom st.port ds }) ∨
    (0x10000 ≤ digitsValFrom st.port ds ∧
      (parseLoop uri ds i st = .error rcExcessiveData ∨
        ∃ v, 0x10000 ≤ v ∧ parseLoop uri ds i st = .ok { st with port := v })) := by
  induction ds generalizing i st with
  | nil => exact Or.inl ⟨hv, rfl⟩
  | cons d t ih =>
      have hd : isDigitA d = true := hds d (List.mem_cons_self d t)
      have h128 : ¬ 128 ≤ d.toNat := isDigitA_not128 d hd
      have h10 : digitVal d < 10 := digitVal_lt10 d hd
      have hnot : ¬ 0x10000 ≤ st.port := by omega
      have hm : (st.port * 10 + digitVal d) % 4294967296 = st.port * 10 + digitVal d :=
        Nat.mod_eq_of_lt (by omega)
      have hstep : parseStep uri i d st =
          .ok { st with port := st.port * 10 + digitVal d } := by
        rw [parseStep.eq_def, hst]
        simp [h128, hnot, hd, hm]
      have hl : parseLoop uri (d :: t) i st =
          parseLoop uri t (i + 1) { st with port := st.port * 10 + digitVal d } := by
        simp only [parseLoop, hstep]
      have hdv : digitsValFrom st.port (d :: t) =
          digitsValFrom (st.port * 10 + digitVal d) t := digitsValFrom_cons _ _ _
      by_cases hlt : st.port * 10 + digitVal d < 0x10000
      · rcases ih (i + 1) { st with port := st.port * 10 + digitVal d } hst
          (fun x hx => hds x (List.mem_cons_of_mem d hx)) hlt with
          ⟨h1, h2⟩ | ⟨h1, h2⟩
        · refine Or.inl ⟨by rw [hdv]; exact h1, ?_⟩
          rw [hl]
          exact h2
        · refine Or.inr ⟨by rw [hdv]; exact h1, ?_⟩
          rcases h2 with h2 | ⟨v, hv1, hv2⟩
          · exact Or.inl (by rw [hl]; exact h2)
          · exact Or.inr ⟨v, hv1, by rw [hl]; exact hv2⟩
      · have hge : 0x10000 ≤ st.port * 10 + digitVal d := by omega
        have hbig : 0x10000 ≤ digitsValFrom st.port (d :: t) := by
          rw [hdv]
          exact le_trans hge (digitsValFrom_le _ _)
        refine Or.inr ⟨hbig, ?_⟩
        cases t with
        | nil =>
            refine Or.inr ⟨st.port * 10 + digitVal d, hge, ?_⟩
            rw [hl]
            rfl
        | cons e u =>
            have hed : isDigitA e = true := hds e (by simp)
            have herr := parseStep_port_entry_excessive uri (i + 1) e
              { st with port := st.port * 10 + digitVal d } hst
              (isDigitA_not128 e hed) hge
            refine Or.inl ?_
            rw [hl]
            simp only [parseLoop, herr]

/-! ### Capture projections and the parse invariant -/

theorem captureScheme_from_uri (p : VPath) (uri : List Char) (a b : Nat) :
    (VPathCaptureScheme p uri a b).from_uri = true := by
  simp only [VPathCaptureScheme]
  split <;> rfl

theorem capturePath_from_uri (p : VPath) (uri : List Char) (a b : Nat)
    (ty : VPPathType) : (VPathCapturePath p uri a b ty).from_uri = p.from_uri := rfl

theorem capturePath_scheme_type (p : VPath) (uri : List Char) (a b : Nat)
    (ty : VPPathType) :
    (VPathCapturePath p uri a b ty).scheme_type = p.scheme_type := rfl

theorem capturePath_path_type (p : VPath) (uri : List Char) (a b : Nat)
    (ty : VPPathType) : (VPathCapturePath p uri a b ty).path_type = ty := rfl

theorem captureQuery_from_uri (p : VPath) (uri : List Char) (a b : Nat) :
    (VPathCaptureQuery p uri a b).from_uri = p.from_uri := rfl

theorem captureQuery_scheme_type (p : VPath) (uri : List Char) (a b : Nat) :
    (VPathCaptureQuery p uri a b).scheme_type = p.scheme_type := rfl

theorem captureQuery_path_type (p : VPath) (uri : List Char) (a b : Nat) :
    (VPathCaptureQuery p uri a b).path_type = p.path_type := rfl

theorem captureFragment_from_uri (p : VPath) (uri : List Char) (a b : Nat) :
    (VPathCaptureFragment p uri a b).from_uri = p.from_uri := rfl

theorem captureFragment_scheme_type (p : VPath) (uri : List Char) (a b : Nat) :
    (VPathCaptureFragment p uri a b).scheme_type = p.scheme_type := rfl

theorem captureFragment_path_type (p : VPath) (uri : List Char) (a b : Nat) :
    (VPathCaptureFragment p uri a b).path_type = p.path_type := rfl

theorem captureAuth_from_uri (p : VPath) (uri : List Char) (a b : Nat) :
    (VPathCaptureAuth p uri a b).from_uri = p.from_uri := rfl

theorem captureHostName_from_uri (p : VPath) (uri : List Char) (a b : Nat) :
    (VPathCaptureHostName p uri a b).from_uri = p.from_uri := rfl

theorem capturePortName_from_uri (p : VPath) (uri : List Char) (a b : Nat) :
    (VPathCapturePortName p uri a b).from_uri = p.from_uri := rfl

theorem captureAcc_from_uri (st : PSt) (uri : List Char) (i : Nat) :
    (captureAcc st uri i).from_uri = st.p.from_uri := by
  simp only [captureAcc, VPathCaptureAccCode, VPathCaptureAccession]
  repeat' split
  all_goals rfl

theorem captureAcc_scheme_type (st : PSt) (uri : List Char) (i : Nat) :
    (captureAcc st uri i).scheme_type = st.p.scheme_type := by
  simp only [captureAcc, VPathCaptureAccCode, VPathCaptureAccession]
  repeat' split
  all_goals rfl

theorem captureAcc_pathish (st : PSt) (uri : List Char) (i : Nat) :
    isPathish (captureAcc st uri i).path_type = true := by
  simp only [captureAcc, VPathCaptureAccCode, VPathCaptureAccession]
  repeat' split
  all_goals rfl

theorem captureOid_from_uri (p : VPath) (oid : Nat) (uri : List Char)
    (a b n : Nat) : (VPathCaptureOid p oid uri a b n).from_uri = p.from_uri := by
  simp only [VPathCaptureOid]
  repeat' split
  all_goals rfl

theorem captureIPv4_from_uri (p p' : VPath) (q : List Nat)
    (h : VPathCaptureIPv4 p q = .ok p') : p'.from_uri = p.from_uri := by
  simp only [VPathCaptureIPv4] at h
  split at h
  · exact absurd h (by simp)
  · simp only [Except.ok.injEq] at h
    subst h
    rfl

theorem captureIPv6_from_uri (p p' : VPath) (q : List Nat)
    (h : VPathCaptureIPv6 p q = .ok p') : p'.from_uri = p.from_uri := by
  simp only [VPathCaptureIPv6] at h
  split at h
  · exact absurd h (by simp)
  · simp only [Except.ok.injEq] at h
    subst h
    rfl

theorem capturePortNum_from_uri (p p' : VPath) (port : Nat)
    (h : VPathCapturePortNum p port = .ok p') : p'.from_uri = p.from_uri := by
  simp only [VPathCapturePortNum] at h
  split at h
  · exact absurd h (by simp)
  · simp only [Except.ok.injEq] at h
    subst h
    rfl

set_option maxHeartbeats 4000000 in
theorem parseStep_inv (uri : List Char) (i : Nat) (c : Char) (st st' : PSt)
    (h : parseStep uri i c st = .ok st') (hinv : PInv st) : PInv st' := by
  rw [parseStep.eq_def] at h
  cases hq : st.state <;> rw [hq] at h <;>
    simp only [PInv, hq, statePostScheme, stateQF] at hinv ⊢ <;>
    (try dsimp only [] at h) <;>
    (repeat' split at h) <;>
    (try rw [stepRelFull.eq_def] at h) <;>
    (repeat' split at h) <;>
    (try simp only [Except.ok.injEq, reduceCtorEq] at h) <;>
    (try subst h) <;>
    intro hfu <;>
    simp_all [stepRelFull, statePostScheme, stateQF, isPathish,
      captureScheme_from_uri, capturePath_from_uri, capturePath_scheme_type,
      capturePath_path_type, captureQuery_from_uri, captureQuery_scheme_type,
      captureQuery_path_type, captureFragment_from_uri,
      captureFragment_scheme_type, captureFragment_path_type,
      captureAuth_from_uri, captureHostName_from_uri, capturePortName_from_uri,
      captureAcc_from_uri, captureAcc_scheme_type, captureAcc_pathish,
      captureOid_from_uri]
  all_goals
    rename_i heq
  all_goals
    first
      | (rw [captureIPv4_from_uri _ _ _ heq] at hfu; simp_all)
      | (rw [captureIPv6_from_uri _ _ _ heq] at hfu; simp_all)
      | (rw [capturePortNum_from_uri _ _ _ heq] at hfu; simp_all)

theorem parseLoop_inv (uri : List Char) (l : List Char) (i : Nat) (st st' : PSt)
    (h : parseLoop uri l i st = .ok st') (hinv : PInv st) : PInv st' := by
  induction l generalizing i st with
  | nil =>
      simp only [parseLoop, Except.ok.injEq] at h
      subst h
      exact hinv
  | cons c t ih =>
      rw [parseLoop] at h
      cases hs : parseStep uri i c st with
      | error e => rw [hs] at h; exact absurd h (by simp)
      | ok st1 =>
          rw [hs] at h
          exact ih (i + 1) st1 h (parseStep_inv uri i c st st1 hs hinv)

set_option maxHeartbeats 4000000 in
theorem parseFinish_native_pathish (uri : List Char) (n : Nat) (st : PSt)
    (p : VPath) (h : parseFinish uri n st = .ok p) (hinv : PInv st)
    (hfu : p.from_uri = false) : isPathish p.path_type = true := by
  rw [parseFinish.eq_def] at h
  cases hq : st.state <;> rw [hq] at h <;>
    simp only [PInv, hq, statePostScheme, stateQF] at hinv <;>
    (repeat' split at h) <;>
    (try simp only [Except.ok.injEq, reduceCtorEq] at h) <;>
    (try subst h) <;>
    simp_all [statePostScheme, stateQF, isPathish,
      capturePath_from_uri, capturePath_path_type,
      captureQuery_from_uri, captureQuery_path_type,
      captureFragment_from_uri, captureFragment_path_type,
      captureHostName_from_uri, capturePortName_from_uri,
      captureAcc_from_uri, captureAcc_pathish, captureOid_from_uri]
  all_goals
    first
      | exact captureAcc_pathish _ _ _
      | (rw [captureIPv4_from_uri _ _ _ h] at hfu; simp_all)
      | (rw [capturePortNum_from_uri _ _ _ h] at hfu; simp_all)

theorem vpathParse_native_pathish (s : List Char) (p : VPath)
    (h : VPathParse s = .ok p) (hfu : p.from_uri = false) :
    isPathish p.path_type = true := by
  rw [VPathParse.eq_def] at h
  cases hl : parseLoop s s 0 {} with
  | error e => rw [hl] at h; exact absurd h (by simp)
  | ok st =>
      rw [hl] at h
      have hinv0 : PInv {} := by
        intro hh
        exact ⟨rfl, rfl, fun hq2 => absurd hq2 (by decide)⟩
      exact parseFinish_native_pathish s s.length st p h
        (parseLoop_inv s s 0 {} st hl hinv0) hfu

/-- C4 counterexample: for the URI-constructed Endpoint path of
`"a://h:80"`, MakeString does not return the full URI: the `vpEndpoint`
`path_type` has no case in the serializer's final switch, so the reported
length includes a stale segment length and the output carries up to that
many bytes of uninitialised stack memory (modelled by the `junk`
parameter) after the partial buffer — the result depends on memory
contents, as the two instantiations show. -/
theorem c4_makestring_cex :
    ((VPathParse "a://h:80".data).bind
        (fun p => VPathMakeString "XYZ".data p) = .ok "a://h:80XYZ".data) ∧
    ((VPathParse "a://h:80".data).bind
        (fun p => VPathMakeString [] p) = .ok "a://h:80".data) ∧
    "a://h:80XYZ".data ≠ "a://h:80".data := by decide

/-- C4 (amended): (a) for every accepted native path (not from a URI, no
query / fragment) MakeString returns exactly the captured path text — the
path portion; (b) whenever the path came from a URI or has a query or
fragment, MakeString defers to the URI renderer `VPathReadUriInt`; (c) for
a path with no recorded scheme text, a path-ish `path_type` and a query or
fragment present, the synthesized scheme agrees with the specification's
table (`specSynthScheme`).  The renderer's output is *not* the full URI
for `vpEndpoint` paths — see the counterexample. -/
theorem c4_makestring (junk : List Char) :
    (∀ s p, VPathParse s = .ok p → p.from_uri = false → p.query = [] →
      p.fragment = [] → VPathMakeString junk p = .ok p.path) ∧
    (∀ p, (p.from_uri = true ∨ p.query ≠ [] ∨ p.fragment ≠ []) →
      VPathMakeString junk p = VPathReadUriInt junk p) ∧
    (∀ p, p.scheme = [] → isPathish p.path_type = true →
      (p.query ≠ [] ∨ p.fragment ≠ []) →
      VPathGetSchemeInt p = .ok (specSynthScheme p)) := by
  refine ⟨?_, ?_, ?_⟩
  · intro s p hok hnat hq hf
    have hpath := vpathParse_native_pathish s p hok hnat
    cases hpt : p.path_type <;> rw [hpt] at hpath <;>
      first
        | exact absurd hpath (by decide)
        | simp [VPathMakeString, VPathReadPathInt, hnat, hq, hf, hpt]
  · intro p hcond
    rcases hcond with h | h | h <;> simp [VPathMakeString, h]
  · intro p hs hpt hqf
    cases hpty : p.path_type <;> rw [hpty] at hpt <;>
      first
        | exact absurd hpt (by decide)
        | simp [VPathGetSchemeInt, specSynthScheme, hs, hpty, hqf]

/-- C4 witness for `c4_makestring`, with empty `junk`: the native path of
`"SRR001656"`, a URI-constructed path, and a schemeless name with a
query. -/
theorem c4_makestring_witness :
    VPathMakeString [] { path := "SRR001656".data,
                         path_type := .vpNameOrAccession,
                         acc_code := 0x3600 } = .ok "SRR001656".data ∧
    VPathMakeString [] { from_uri := true } =
      VPathReadUriInt [] { from_uri := true } ∧
    VPathGetSchemeInt { path := ['n'], path_type := .vpName,
                        query := "?q".data } =
      .ok (specSynthScheme { path := ['n'], path_type := .vpName,
                             query := "?q".data }) :=
  ⟨(c4_makestring []).1 "SRR001656".data
     { path := "SRR001656".data, path_type := .vpNameOrAccession,
       acc_code := 0x3600 } (by decide) rfl rfl rfl,
   (c4_makestring []).2.1 { from_uri := true } (Or.inl rfl),
   (c4_makestring []).2.2 { path := ['n'], path_type := .vpName,
                            query := "?q".data } rfl (by decide)
     (Or.inl (by decide))⟩

/-- C2 counterexample: `"////x"` is accepted (as a full path, with the
captured path text `"//x"` — the anchor advanced past the first two
slashes), its serialization is `"//x"`, but re-parsing `"//x"` classifies
it as a UNC path: the `(scheme_type, path_type, acc_code)` triple is not
preserved by serialize-then-reparse. -/
theorem c2_roundtrip_cex :
    ((VPathParse "////x".data).map (fun p => p.path_type) = .ok .vpFullPath) ∧
    ((VPathParse "////x".data).bind (fun p => VPathMakeString [] p) =
      .ok "//x".data) ∧
    ((VPathParse "//x".data).map (fun p => p.path_type) = .ok .vpUNCPath) ∧
    VPPathType.vpFullPath ≠ VPPathType.vpUNCPath := by decide

/-- C2 (amended): for an accepted input that yields a native path (not
from a URI) with no query / fragment and whose captured path text equals
the input, serialization returns exactly the input string, so a second
parse yields a path with the same `(scheme_type, path_type, acc_code)`
triple and the same serialization.  (The parse invariant supplies that
such native paths always carry a path-ish `path_type`, so `MakeString`
takes the native branch and emits the captured path text.) -/
theorem c2_roundtrip_native (s junk : List Char) (p : VPath)
    (hok : VPathParse s = .ok p) (hnat : p.from_uri = false)
    (hq : p.query = []) (hf : p.fragment = []) (hp : p.path = s) :
    VPathMakeString junk p = .ok s ∧
    ∃ p2, VPathParse s = .ok p2 ∧
      p2.scheme_type = p.scheme_type ∧ p2.path_type = p.path_type ∧
      p2.acc_code = p.acc_code ∧
      VPathMakeString junk p2 = VPathMakeString junk p := by
  have hpath : isPathish p.path_type = true := vpathParse_native_pathish s p hok hnat
  have hms : VPathMakeString junk p = .ok s := by
    cases hpt : p.path_type <;> rw [hpt] at hpath <;>
      first
        | exact absurd hpath (by decide)
        | simp [VPathMakeString, VPathReadPathInt, hnat, hq, hf, hpt, hp]
  exact ⟨hms, p, hok, rfl, rfl, rfl, rfl⟩

/-- C2 witness for `c2_roundtrip_native`, at the input `"SRR001656"`. -/
theorem c2_roundtrip_native_witness :
    ∃ p, (VPathParse "SRR001656".data = .ok p ∧ p.from_uri = false ∧
        p.query = [] ∧ p.fragment = [] ∧ p.path = "SRR001656".data) ∧
      (VPathMakeString [] p = .ok "SRR001656".data ∧
        ∃ p2, VPathParse "SRR001656".data = .ok p2 ∧
          p2.scheme_type = p.scheme_type ∧ p2.path_type = p.path_type ∧
          p2.acc_code = p.acc_code ∧
          VPathMakeString [] p2 = VPathMakeString [] p) :=
  ⟨{ path := "SRR001656".data, path_type := .vpNameOrAccession,
     acc_code := 0x3600 },
   ⟨by decide, rfl, rfl, rfl, rfl⟩,
   c2_roundtrip_native "SRR001656".data []
     { path := "SRR001656".data, path_type := .vpNameOrAccession,
       acc_code := 0x3600 }
     (by decide) rfl rfl rfl rfl⟩

/-- C7 counterexample: `"a://256"` reaches the IPv4 host position with the
octet accumulator at 256 > 255, yet the parse fails with `(data,
insufficient)`, not `(data, excessive)`: the over-255 check only fires
when a further character follows the offending octet (or when the dotted
quad is complete at end of input), as `"a://256."` evidences. -/
theorem c7_excessive_cex :
    VPathParse "a://256".data = .error rcInsufficientData ∧
    VPathParse "a://256.".data = .error rcExcessiveData ∧
    rcInsufficientData ≠ rcExcessiveData := by decide

/-- C7 (amended): when the parse continues past the offending run, the
over-large values are rejected with `(data, excessive)`: an IPv4 octet
whose digit run exceeds 255 followed by `'.'`, an IPv6 group whose hex
digit run exceeds 0xFFFF followed by `']'`, and a port number whose digit
run exceeds 65535 (here at end of input) all fail with
`rcExcessiveData`.  (An input that simply ends inside an incomplete dotted
quad or bracketed IPv6 literal fails with `rcInsufficientData` even when
an accumulated octet/group already exceeds its bound — see the
counterexample.) -/
theorem c7_host_port_excessive :
    (∀ ds rest, (∀ c ∈ ds, isDigitA c = true) → 255 < digitsVal ds →
      VPathParse ("a://".data ++ (ds ++ '.' :: rest)) = .error rcExcessiveData) ∧
    (∀ x xs, isXDigitA x = true → (∀ c ∈ xs, isXDigitA c = true) →
      0xFFFF < hexValFrom (hexDigitVal x) xs → ∀ rest,
      VPathParse ("a://[".data ++ ((x :: xs) ++ ']' :: rest)) =
        .error rcExcessiveData) ∧
    (∀ ds, (∀ c ∈ ds, isDigitA c = true) → 65535 < digitsVal ds →
      VPathParse ("a://h:".data ++ ds) = .error rcExcessiveData) := by
  refine ⟨?_, ?_, ?_⟩
  · -- IPv4 octet family
    intro ds rest hds hgt
    cases ds with
    | nil =>
        simp only [digitsVal, digitsValFrom, List.foldl_nil] at hgt
        omega
    | cons d t =>
        have hd : isDigitA d = true := hds d (List.mem_cons_self d t)
        have hd128 : ¬ 128 ≤ d.toNat := isDigitA_not128 d hd
        have hdalpha : isAlphaA d = false := isDigitA_not_alpha d hd
        have hpre : parseLoop ("a://".data ++ ((d :: t) ++ '.' :: rest))
            "a://".data 0 {} =
            .ok { state := .vppAuthHostSpec, anchor := 2,
                  p := { from_uri := true, scheme := ['a'],
                         scheme_type := .vpuri_not_supported } } := rfl
        have hstep4 : ∀ u, parseStep u 4 d
            { state := .vppAuthHostSpec, anchor := 2,
              p := { from_uri := true, scheme := ['a'],
                     scheme_type := .vpuri_not_supported } } =
            .ok { state := .vppIPv4Port, anchor := 4, ip := 0,
                  ipv4 := [digitVal d, 0, 0, 0],
                  p := { from_uri := true, scheme := ['a'],
                         scheme_type := .vpuri_not_supported } } := by
          intro u
          rw [parseStep.eq_def]
          simp [hd128, hdalpha, hd]
        have hb : 256 ≤ digitsValFrom (digitVal d) t := by
          rw [← digitsVal_cons]; omega
        have hrun := parseLoop_ipv4_excessive
          ("a://".data ++ ((d :: t) ++ '.' :: rest)) t rest 5
          { state := .vppIPv4Port, anchor := 4, ip := 0,
            ipv4 := [digitVal d, 0, 0, 0],
            p := { from_uri := true, scheme := ['a'],
                   scheme_type := .vpuri_not_supported } }
          rfl (fun c hc => hds c (List.mem_cons_of_mem d hc))
          (by show (0 : Nat) < 4; decide)
          (by show digitVal d < 256; have := digitVal_lt10 d hd; omega)
          hb
        have hloop : parseLoop ("a://".data ++ ((d :: t) ++ '.' :: rest))
            ("a://".data ++ ((d :: t) ++ '.' :: rest)) 0 {} =
            .error rcExcessiveData := by
          rw [parseLoop_append, hpre]
          show parseLoop ("a://".data ++ ((d :: t) ++ '.' :: rest))
            ((d :: t) ++ '.' :: rest) 4
            { state := .vppAuthHostSpec, anchor := 2,
              p := { from_uri := true, scheme := ['a'],
                     scheme_type := .vpuri_not_supported } } =
            .error rcExcessiveData
          have hl : parseLoop ("a://".data ++ ((d :: t) ++ '.' :: rest))
              ((d :: t) ++ '.' :: rest) 4
              { state := .vppAuthHostSpec, anchor := 2,
                p := { from_uri := true, scheme := ['a'],
                       scheme_type := .vpuri_not_supported } } =
              parseLoop ("a://".data ++ ((d :: t) ++ '.' :: rest))
              (t ++ '.' :: rest) 5
              { state := .vppIPv4Port, anchor := 4, ip := 0,
                ipv4 := [digitVal d, 0, 0, 0],
                p := { from_uri := true, scheme := ['a'],
                       scheme_type := .vpuri_not_supported } } := by
            show parseLoop ("a://".data ++ ((d :: t) ++ '.' :: rest))
              (d :: (t ++ '.' :: rest)) 4
              { state := .vppAuthHostSpec, anchor := 2,
                p := { from_uri := true, scheme := ['a'],
                       scheme_type := .vpuri_not_supported } } = _
            simp only [parseLoop, hstep4]
          rw [hl]
          exact hrun
        rw [VPathParse.eq_def, hloop]
  · -- IPv6 group family
    intro x xs hx hxs hgt rest
    have hx128 : ¬ 128 ≤ x.toNat := isXDigitA_not128 x hx
    have hxc : ¬ (x = ':') := fun hcc => by
      rw [hcc] at hx; exact absurd hx (by decide)
    have hpre : parseLoop ("a://[".data ++ ((x :: xs) ++ ']' :: rest))
        "a://[".data 0 {} =
        .ok { state := .vppIPv6Colon, anchor := 4, ip := 0,
              ipv6 := [0, 0, 0, 0, 0, 0, 0, 0],
              p := { from_uri := true, scheme := ['a'],
                     scheme_type := .vpuri_not_supported } } := rfl
    have hstep5 : ∀ u, parseStep u 5 x
        { state := .vppIPv6Colon, anchor := 4, ip := 0,
          ipv6 := [0, 0, 0, 0, 0, 0, 0, 0],
          p := { from_uri := true, scheme := ['a'],
                 scheme_type := .vpuri_not_supported } } =
        .ok { state := .vppIPv6Port, anchor := 4, ip := 0,
              ipv6 := [hexDigitVal x, 0, 0, 0, 0, 0, 0, 0],
              p := { from_uri := true, scheme := ['a'],
                     scheme_type := .vpuri_not_supported } } := by
      intro u
      rw [parseStep.eq_def]
      by_cases hdd : isDigitA x = true
      · simp [hxc, hx128, hx, hdd, hexDigitVal]
      · simp [hxc, hx128, hx, hdd, hexDigitVal]
    have hb : 0x10000 ≤ hexValFrom (hexDigitVal x) xs := by omega
    have hrun := parseLoop_ipv6_excessive
      ("a://[".data ++ ((x :: xs) ++ ']' :: rest)) xs rest 6
      { state := .vppIPv6Port, anchor := 4, ip := 0,
        ipv6 := [hexDigitVal x, 0, 0, 0, 0, 0, 0, 0],
        p := { from_uri := true, scheme := ['a'],
               scheme_type := .vpuri_not_supported } }
      rfl hxs
      (by show (0 : Nat) < 8; decide)
      (by show hexDigitVal x < 0x10000; have := hexDigitVal_lt16 x hx; omega)
      hb
    have hloop : parseLoop ("a://[".data ++ ((x :: xs) ++ ']' :: rest))
        ("a://[".data ++ ((x :: xs) ++ ']' :: rest)) 0 {} =
        .error rcExcessiveData := by
      rw [parseLoop_append, hpre]
      show parseLoop ("a://[".data ++ ((x :: xs) ++ ']' :: rest))
        ((x :: xs) ++ ']' :: rest) 5
        { state := .vppIPv6Colon, anchor := 4, ip := 0,
          ipv6 := [0, 0, 0, 0, 0, 0, 0, 0],
          p := { from_uri := true, scheme := ['a'],
                 scheme_type := .vpuri_not_supported } } =
        .error rcExcessiveData
      have hl : parseLoop ("a://[".data ++ ((x :: xs) ++ ']' :: rest))
          ((x :: xs) ++ ']' :: rest) 5
          { state := .vppIPv6Colon, anchor := 4, ip := 0,
            ipv6 := [0, 0, 0, 0, 0, 0, 0, 0],
            p := { from_uri := true, scheme := ['a'],
                   scheme_type := .vpuri_not_supported } } =
          parseLoop ("a://[".data ++ ((x :: xs) ++ ']' :: rest))
          (xs ++ ']' :: rest) 6
          { state := .vppIPv6Port, anchor := 4, ip := 0,
            ipv6 := [hexDigitVal x, 0, 0, 0, 0, 0, 0, 0],
            p := { from_uri := true, scheme := ['a'],
                   scheme_type := .vpuri_not_supported } } := by
        show parseLoop ("a://[".data ++ ((x :: xs) ++ ']' :: rest))
          (x :: (xs ++ ']' :: rest)) 5
          { state := .vppIPv6Colon, anchor := 4, ip := 0,
            ipv6 := [0, 0, 0, 0, 0, 0, 0, 0],
            p := { from_uri := true, scheme := ['a'],
                   scheme_type := .vpuri_not_supported } } = _
        simp only [parseLoop, hstep5]
      rw [hl]
      exact hrun
    rw [VPathParse.eq_def, hloop]
  · -- port number family
    intro ds hds hgt
    cases ds with
    | nil =>
        simp only [digitsVal, digitsValFrom, List.foldl_nil] at hgt
        omega
    | cons d t =>
        have hd : isDigitA d = true := hds d (List.mem_cons_self d t)
        have hd128 : ¬ 128 ≤ d.toNat := isDigitA_not128 d hd
        have hdalpha : isAlphaA d = false := isDigitA_not_alpha d hd
        have hpre : parseLoop ("a://h:".data ++ (d :: t)) "a://h:".data 0 {} =
            .ok { state := .vppPortSpec, anchor := 4,
                  p := { from_uri := true, scheme := ['a'],
                         scheme_type := .vpuri_not_supported,
                         host := ['h'], path_type := .vpHostName } } := rfl
        have hstep6 : ∀ u, parseStep u 6 d
            { state := .vppPortSpec, anchor := 4,
              p := { from_uri := true, scheme := ['a'],
                     scheme_type := .vpuri_not_supported,
                     host := ['h'], path_type := .vpHostName } } =
            .ok { state := .vppPortNum, anchor := 6, port := digitVal d,
                  p := { from_uri := true, scheme := ['a'],
                         scheme_type := .vpuri_not_supported,
                         host := ['h'], path_type := .vpHostName } } := by
          intro u
          rw [parseStep.eq_def]
          simp [hd128, hdalpha, hd]
        have hb : 0x10000 ≤ digitsValFrom (digitVal d) t := by
          rw [← digitsVal_cons]; omega
        have hl : parseLoop ("a://h:".data ++ (d :: t)) (d :: t) 6
            { state := .vppPortSpec, anchor := 4,
              p := { from_uri := true, scheme := ['a'],
                     scheme_type := .vpuri_not_supported,
                     host := ['h'], path_type := .vpHostName } } =
            parseLoop ("a://h:".data ++ (d :: t)) t 7
            { state := .vppPortNum, anchor := 6, port := digitVal d,
              p := { from_uri := true, scheme := ['a'],
                     scheme_type := .vpuri_not_supported,
                     host := ['h'], path_type := .vpHostName } } := by
          simp only [parseLoop, hstep6]
        rcases parseLoop_portNum_run ("a://h:".data ++ (d :: t)) t 7
          { state := .vppPortNum, anchor := 6, port := digitVal d,
            p := { from_uri := true, scheme := ['a'],
                   scheme_type := .vpuri_not_supported,
                   host := ['h'], path_type := .vpHostName } }
          rfl (fun c hc => hds c (List.mem_cons_of_mem d hc))
          (by show digitVal d < 0x10000; have := digitVal_lt10 d hd; omega) with
          ⟨h1, _⟩ | ⟨_, hcase⟩
        · have h1' : digitsValFrom (digitVal d) t < 0x10000 := h1
          omega
        · rcases hcase with herr | ⟨v, hv1, hok⟩
          · have hloop : parseLoop ("a://h:".data ++ (d :: t))
                ("a://h:".data ++ (d :: t)) 0 {} = .error rcExcessiveData := by
              rw [parseLoop_append, hpre]
              show parseLoop ("a://h:".data ++ (d :: t)) (d :: t) 6
                { state := .vppPortSpec, anchor := 4,
                  p := { from_uri := true, scheme := ['a'],
                         scheme_type := .vpuri_not_supported,
                         host := ['h'], path_type := .vpHostName } } =
                .error rcExcessiveData
              rw [hl]
              exact herr
            rw [VPathParse.eq_def, hloop]
          · have hloop : parseLoop ("a://h:".data ++ (d :: t))
                ("a://h:".data ++ (d :: t)) 0 {} =
                .ok { state := .vppPortNum, anchor := 6, port := v,
                      p := { from_uri := true, scheme := ['a'],
                             scheme_type := .vpuri_not_supported,
                             host := ['h'], path_type := .vpHostName } } := by
              rw [parseLoop_append, hpre]
              show parseLoop ("a://h:".data ++ (d :: t)) (d :: t) 6
                { state := .vppPortSpec, anchor := 4,
                  p := { from_uri := true, scheme := ['a'],
                         scheme_type := .vpuri_not_supported,
                         host := ['h'], path_type := .vpHostName } } =
                .ok { state := .vppPortNum, anchor := 6, port := v,
                      p := { from_uri := true, scheme := ['a'],
                             scheme_type := .vpuri_not_supported,
                             host := ['h'], path_type := .vpHostName } }
              rw [hl]
              exact hok
            rw [VPathParse.eq_def, hloop]
            show VPathCapturePortNum
              { from_uri := true, scheme := ['a'],
                scheme_type := .vpuri_not_supported,
                host := ['h'], path_type := .vpHostName } v =
              .error rcExcessiveData
            rw [VPathCapturePortNum, if_pos hv1]

/-- C7 witness for `c7_host_port_excessive`, at the inputs `"a://256."`,
`"a://[10000]"` and `"a://h:65536"`. -/
theorem c7_host_port_excessive_witness :
    VPathParse ("a://".data ++ ("256".data ++ '.' :: [])) =
      .error rcExcessiveData ∧
    VPathParse ("a://[".data ++ (('1' :: "0000".data) ++ ']' :: [])) =
      .error rcExcessiveData ∧
    VPathParse ("a://h:".data ++ "65536".data) = .error rcExcessiveData :=
  ⟨c7_host_port_excessive.1 "256".data [] (by decide) (by decide),
   c7_host_port_excessive.2.1 '1' "0000".data (by decide) (by decide)
     (by decide) [],
   c7_host_port_excessive.2.2 "65536".data (by decide) (by decide)⟩

/-- C5 counterexample: `"ncbi-obj:4294967296"` has a 10-character segment
of value exactly `2^32`, which the claim classifies as OID, yet the code
yields `vpName` (the code requires `oid ≤ 0xFFFFFFFF = 2^32 - 1`, and also
rejects `oid = 0`); and `"ncbi-obj:000000000042"` has a 12-character
segment, which the claim classifies as Name, yet the code yields `vpOID`
with `obj_id = 42` (leading zeros do not count against the 10-digit
limit). -/
theorem c5_ncbi_obj_oid_cex :
    ((VPathParse "ncbi-obj:4294967296".data).map (fun p => p.path_type) =
        .ok .vpName) ∧
    ((VPathParse "ncbi-obj:000000000042".data).map
        (fun p => (p.path_type, p.obj_id)) = .ok (.vpOID, 42)) ∧
    VPPathType.vpName ≠ VPPathType.vpOID := by decide

/-- C5 (amended): for `"ncbi-obj:"` followed by any all-digit segment of
value `v` (below `2^64`, so that the `uint64_t` accumulator does not wrap)
with `s` significant digits (not counting leading zeros): the parse
succeeds with scheme `ncbi-obj`, and the path gets `path_type = OID` with
`obj_id = v` when `0 < v ≤ 2^32 - 1` and `s ≤ 10`, and `path_type = Name`
when `v = 0`, `s > 10`, or `v > 2^32 - 1`. -/
theorem c5_ncbi_obj_oid (ds : List Char) (hne : ds ≠ [])
    (hdig : ∀ c ∈ ds, isDigitA c = true) (hnw : digitsVal ds < 2 ^ 64) :
    ∃ p, VPathParse ("ncbi-obj:".data ++ ds) = .ok p ∧
      p.scheme_type = .vpuri_ncbi_obj ∧
      ((digitsVal ds = 0 ∨ 10 < sigDigits ds ∨ 0xFFFFFFFF < digitsVal ds) →
        p.path_type = .vpName) ∧
      (digitsVal ds ≠ 0 → sigDigits ds ≤ 10 → digitsVal ds ≤ 0xFFFFFFFF →
        p.path_type = .vpOID ∧ p.obj_id = digitsVal ds) := by
  obtain ⟨d, t, rfl⟩ := List.exists_cons_of_ne_nil hne
  have hd : isDigitA d = true := hdig d (List.mem_cons_self d t)
  have hd128 : ¬ 128 ≤ d.toNat := isDigitA_not128 d hd
  have hdalpha : isAlphaA d = false := isDigitA_not_alpha d hd
  have hnwt : digitsValFrom (digitVal d) t < 2 ^ 64 := by
    rw [← digitsVal_cons]; exact hnw
  -- run the concrete scheme prefix, the first digit, then the digit run
  have hpre : parseLoop ("ncbi-obj:".data ++ (d :: t)) "ncbi-obj:".data 0 {} =
      .ok { state := .vppAccOidRelOrSlash,
            p := { from_uri := true, scheme := "ncbi-obj".data,
                   scheme_type := .vpuri_ncbi_obj } } := rfl
  have hstep9 : parseStep ("ncbi-obj:".data ++ (d :: t)) 9 d
      { state := .vppAccOidRelOrSlash,
        p := { from_uri := true, scheme := "ncbi-obj".data,
               scheme_type := .vpuri_ncbi_obj } } =
      .ok { state := .vppOidRel, anchor := 9, oid := digitVal d, oidAnchor := 9,
            p := { from_uri := true, scheme := "ncbi-obj".data,
                   scheme_type := .vpuri_ncbi_obj } } := by
    rw [parseStep.eq_def]
    simp [hd128, hdalpha, hd]
  have hrun := parseLoop_oidRel ("ncbi-obj:".data ++ (d :: t)) t 10
      { state := .vppOidRel, anchor := 9, oid := digitVal d, oidAnchor := 9,
        p := { from_uri := true, scheme := "ncbi-obj".data,
               scheme_type := .vpuri_ncbi_obj } }
      rfl (fun x hx => hdig x (List.mem_cons_of_mem d hx))
  have hloop : parseLoop ("ncbi-obj:".data ++ (d :: t))
      ("ncbi-obj:".data ++ (d :: t)) 0 {} =
      .ok { state := .vppOidRel, anchor := 9,
            oid := oidFoldV (digitVal d) t,
            oidAnchor := oidFoldA (digitVal d) 9 10 t,
            p := { from_uri := true, scheme := "ncbi-obj".data,
                   scheme_type := .vpuri_ncbi_obj } } := by
    rw [parseLoop_append, hpre]
    show parseLoop ("ncbi-obj:".data ++ (d :: t)) (d :: t) 9 _ = _
    have hl : parseLoop ("ncbi-obj:".data ++ (d :: t)) (d :: t) 9
        { state := .vppAccOidRelOrSlash,
          p := { from_uri := true, scheme := "ncbi-obj".data,
                 scheme_type := .vpuri_ncbi_obj } } =
        parseLoop ("ncbi-obj:".data ++ (d :: t)) t 10
        { state := .vppOidRel, anchor := 9, oid := digitVal d, oidAnchor := 9,
          p := { from_uri := true, scheme := "ncbi-obj".data,
                 scheme_type := .vpuri_ncbi_obj } } := by
      simp only [parseLoop, hstep9]
    rw [hl, hrun]
  have hfin : VPathParse ("ncbi-obj:".data ++ (d :: t)) =
      .ok (VPathCaptureOid
        { from_uri := true, scheme := "ncbi-obj".data,
          scheme_type := .vpuri_ncbi_obj }
        (oidFoldV (digitVal d) t) ("ncbi-obj:".data ++ (d :: t)) 9
        (oidFoldA (digitVal d) 9 10 t) ("ncbi-obj:".data ++ (d :: t)).length) := by
    rw [VPathParse.eq_def, hloop]
    rfl
  -- numeric characterisation of the accumulated oid and anchor
  have hov : oidFoldV (digitVal d) t = digitsVal (d :: t) := by
    rw [oidFoldV_eq_digitsValFrom t (digitVal d) hnwt, digitsVal_cons]
  have hlen : ("ncbi-obj:".data ++ (d :: t)).length = 10 + t.length := by
    simp
    omega
  -- size of the significant-digit suffix, when the value is nonzero
  have hsize : digitsVal (d :: t) ≠ 0 →
      ("ncbi-obj:".data ++ (d :: t)).length - oidFoldA (digitVal d) 9 10 t =
        sigDigits (d :: t) := by
    intro hv0
    by_cases hz : d = '0'
    · subst hz
      have hvz : digitVal '0' = 0 := rfl
      have htne : digitsVal t ≠ 0 := by
        intro hzz
        apply hv0
        rw [digitsVal_cons, hvz]
        exact hzz
      have htnil : t ≠ [] := by
        intro hnil; rw [hnil] at htne; exact htne rfl
      have hdrop : t.dropWhile (fun c => c = '0') ≠ [] :=
        digitsVal_ne_zero_dropWhile t htne
      have hsig1 : 1 ≤ sigDigits t := by
        rw [sigDigits]
        cases hcase : t.dropWhile (fun c => c = '0') with
        | nil => exact absurd hcase hdrop
        | cons _ _ => simp
      have hsl := sigDigits_add_leadZeros t
      have hA : oidFoldA (digitVal '0') 9 10 t =
          10 + min (leadZeros t) (t.length - 1) := by
        rw [hvz, oidFoldA_from_zero t 9 10
          (fun x hx => hdig x (List.mem_cons_of_mem _ hx))
          (by rw [digitsVal_cons, hvz] at hnw; exact hnw), if_neg htnil]
      have hmin : min (leadZeros t) (t.length - 1) = leadZeros t := by omega
      have hsig0 : sigDigits ('0' :: t) = sigDigits t := by
        simp [sigDigits, List.dropWhile]
      rw [hA, hmin, hlen, hsig0]
      omega
    · have hzv : digitVal d ≠ 0 := fun hh => hz ((digitVal_zero_iff d hd).mp hh)
      have hA : oidFoldA (digitVal d) 9 10 t = 9 :=
        oidFoldA_nonzero t (digitVal d) 9 10 hzv hnwt
      have hlz : leadZeros (d :: t) = 0 := by
        simp [leadZeros, List.takeWhile, hz]
      have hsl := sigDigits_add_leadZeros (d :: t)
      rw [hA, hlen]
      simp only [List.length_cons] at hsl
      omega
  refine ⟨_, hfin, ?_, ?_, ?_⟩
  · -- scheme type
    rw [VPathCaptureOid]
    split
    · rfl
    · rw [if_pos rfl]
  · -- the Name cases
    intro hcase
    rw [VPathCaptureOid, hov]
    rcases hcase with h0 | hsig | hbig
    · rw [if_pos (Or.inl h0)]
    · by_cases h0 : digitsVal (d :: t) = 0
      · rw [if_pos (Or.inl h0)]
      · rw [if_pos (Or.inr (Or.inl (by rw [hsize h0]; exact hsig)))]
    · rw [if_pos (Or.inr (Or.inr hbig))]
  · -- the OID case
    intro h0 hsig hbound
    rw [VPathCaptureOid, hov,
      if_neg (by
        push_neg
        refine ⟨h0, ?_, hbound⟩
        rw [hsize h0]
        exact hsig),
      if_pos rfl]
    exact ⟨rfl, rfl⟩

/-- C5 witness for `c5_ncbi_obj_oid`, at the segment `"42"`
(i.e. the input `"ncbi-obj:42"`). -/
theorem c5_ncbi_obj_oid_witness :
    ("42".data ≠ [] ∧ (∀ c ∈ "42".data, isDigitA c = true) ∧
      digitsVal "42".data < 2 ^ 64) ∧
    (∃ p, VPathParse ("ncbi-obj:".data ++ "42".data) = .ok p ∧
      p.scheme_type = .vpuri_ncbi_obj ∧
      ((digitsVal "42".data = 0 ∨ 10 < sigDigits "42".data ∨
          0xFFFFFFFF < digitsVal "42".data) → p.path_type = .vpName) ∧
      (digitsVal "42".data ≠ 0 → sigDigits "42".data ≤ 10 →
        digitsVal "42".data ≤ 0xFFFFFFFF →
        p.path_type = .vpOID ∧ p.obj_id = digitsVal "42".data)) :=
  ⟨⟨by decide, by decide, by decide⟩,
    c5_ncbi_obj_oid "42".data (by decide) (by decide) (by decide)⟩

/-- C1 counterexample: parsing `"SRR001656"` does *not* yield
`path_type = Accession` with `acc_code = 0x03060`: the decision table keeps
sra-shaped accessions (`acc_code >> 8 = 0x036`) at `vpNameOrAccession`, and
the digit count is packed at bit 8, so the code is `0x03600`. -/
theorem c1_srr001656_cex :
    ¬ ((VPathParse "SRR001656".data).map
          (fun p => (p.scheme_type, p.path_type, p.acc_code)) =
        .ok (.vpuri_none, .vpAccession, 0x03060)) := by decide

/-- C1 (amended): `"SRR001656"` parses with `scheme_type = none`,
`path_type = NameOrAccession` and `acc_code = 0x03600`
(3 alpha, 6 digits: shape `0x036`). -/
theorem c1_srr001656 :
    (VPathParse "SRR001656".data).map
        (fun p => (p.scheme_type, p.path_type, p.acc_code)) =
      .ok (.vpuri_none, .vpNameOrAccession, 0x03600) := by decide

/-- C6: the empty string parses to `RC ( ..., rcString, rcEmpty )`, and the
truncated inputs `"a:"` (bare scheme) and `"a://"` (scheme plus `//` and
nothing else) parse to `RC ( ..., rcData, rcInsufficient )`; in each case
the parser returns an error, so no `VPath` is produced. -/
theorem c6_parse_failure_rcs :
    VPathParse "".data = .error rcEmptyString ∧
    VPathParse "a:".data = .error rcInsufficientData ∧
    VPathParse "a://".data = .error rcInsufficientData := by decide

/-- C3 counterexample: with all flags clear, a local-oracle failure whose
state is *not* `rcNotFound` (here `rcBusy`) still triggers the remote
consultation, instead of propagating without a remote attempt. -/
theorem c3_remote_on_any_local_error_cex :
    (VFSManagerResolvePathResolver {}
        (.error ⟨.rcVFS, .rcMgr, .rcResolving, .rcPathO, .rcBusy⟩)
        (.ok { path := ['r'], path_type := .vpFullPath })).remoteConsulted =
      some .eProtocolHttp ∧
    RCState.rcBusy ≠ RCState.rcNotFound := by decide

/-- C3 (amended): for an accession query with `no_acc` and `no_acc_local`
clear, the remote oracle is consulted (with protocol http) exactly when the
local consultation did not succeed — whatever its error cause — and
`no_acc_remote` is clear; a local success is returned as-is with no remote
attempt, and with `no_acc_remote` set a local failure propagates. -/
theorem c3_remote_iff_local_not_ok (flags : ResolveFlags)
    (localRes remoteRes : Except RC VPath)
    (hacc : flags.noAcc = false) (hloc : flags.noAccLocal = false) :
    ((VFSManagerResolvePathResolver flags localRes remoteRes).remoteConsulted =
        some .eProtocolHttp ↔
      exceptIsOk localRes = false ∧ flags.noAccRemote = false) ∧
    (∀ p, localRes = .ok p →
      VFSManagerResolvePathResolver flags localRes remoteRes =
        ⟨.ok (some p), none⟩) ∧
    (∀ e, localRes = .error e → flags.noAccRemote = true →
      VFSManagerResolvePathResolver flags localRes remoteRes =
        ⟨.error e, none⟩) := by
  cases localRes <;>
    simp_all [VFSManagerResolvePathResolver, exceptIsOk] <;>
    cases hrem : flags.noAccRemote <;> simp_all

/-- C3 witness for `c3_remote_iff_local_not_ok`. -/
theorem c3_remote_iff_local_not_ok_witness :
    (({} : ResolveFlags).noAcc = false ∧ ({} : ResolveFlags).noAccLocal = false) ∧
    ((VFSManagerResolvePathResolver {} (.error rcSraNotAvailable)
        (.ok {})).remoteConsulted = some .eProtocolHttp ↔
      exceptIsOk (.error rcSraNotAvailable : Except RC VPath) = false ∧
        ({} : ResolveFlags).noAccRemote = false) :=
  ⟨⟨rfl, rfl⟩,
    (c3_remote_iff_local_not_ok {} (.error rcSraNotAvailable) (.ok {}) rfl rfl).1⟩

/-- C8: whenever the decryption probe runs (the path carries the
`encrypted` query option or the caller forced decryption), the prefix was
obtained (random access available, or unsupported with the pre-read buffer
inserted, and the 4 KiB read succeeded) and neither envelope magic matches,
the open returns `rc == 0` with the raw (possibly buffered) stream. -/
theorem c8_probe_returns_raw_on_no_magic (p : VPath) (force : Bool)
    (o : DecChecks)
    (hprobe : exceptIsOk (VPathOptionEncrypted p) = true ∨ force = true)
    (hra : o.randomAccessRC = none ∨
      (∃ rc, o.randomAccessRC = some rc ∧ rc.state = .rcUnsupported ∧
        o.bufFileRC = none))
    (hread : o.readAllRC = none)
    (henc : o.isEnc = false) (hwga : o.isWgaEnc = false) :
    VFSManagerOpenFileReadDecryption p force o =
      .ok (.raw o.randomAccessRC.isSome) := by
  have hgate : ¬ (exceptIsOk (VPathOptionEncrypted p) = false ∧ force = false) := by
    rcases hprobe with h | h <;> simp [h]
  rcases hra with h | ⟨rc, h, hstate, hbuf⟩
  · simp [VFSManagerOpenFileReadDecryption, hgate, h, hread, henc, hwga]
  · simp [VFSManagerOpenFileReadDecryption, hgate, h, hstate, hbuf, hread, henc, hwga]

/-- C8 witness for `c8_probe_returns_raw_on_no_magic`, with the probe
triggered by the `?enc` query option of `"ncbi-file:/data/x.sra?enc"`. -/
theorem c8_probe_returns_raw_on_no_magic_witness :
    ∃ p, VPathParse "ncbi-file:/data/x.sra?enc".data = .ok p ∧
      (exceptIsOk (VPathOptionEncrypted p) = true ∨ false = true) ∧
      VFSManagerOpenFileReadDecryption p false {} = .ok (.raw false) := by
  refine ⟨_, rfl, Or.inl (by decide), ?_⟩
  exact c8_probe_returns_raw_on_no_magic _ false {} (Or.inl (by decide))
    (Or.inl rfl) rfl rfl rfl

/-- C9: while a manager is alive (the static slot holds it), every further
construction returns that same instance with one more strong reference and
leaves it in the slot, whatever the construction oracle would do; releasing
the last strong reference destroys the instance and clears the slot, while
a non-final release keeps the slot. -/
theorem c9_singleton_idempotent :
    (∀ (w : MgrWorld) (m : Nat) (ok : Bool), w.slot = some m →
      VFSManagerMakeFromKfg w ok = (.ok m, { w with refcount := w.refcount + 1 }) ∧
      ({ w with refcount := w.refcount + 1 } : MgrWorld).slot = some m) ∧
    (∀ w : MgrWorld, w.refcount = 1 → (VFSManagerRelease w).slot = none) ∧
    (∀ w : MgrWorld, 2 ≤ w.refcount → (VFSManagerRelease w).slot = w.slot) := by
  refine ⟨fun w m ok h => ?_, fun w h => ?_, fun w h => ?_⟩
  · simp [VFSManagerMakeFromKfg, h]
  · simp [VFSManagerRelease, h]
  · have : ¬ w.refcount ≤ 1 := by omega
    simp [VFSManagerRelease, this]

/-- C9 witness for `c9_singleton_idempotent`: a world holding instance `0`
with one reference. -/
theorem c9_singleton_idempotent_witness :
    (({ slot := some 0, refcount := 1, nextId := 1 } : MgrWorld).slot = some 0 ∧
      VFSManagerMakeFromKfg { slot := some 0, refcount := 1, nextId := 1 } true =
        (.ok 0, { slot := some 0, refcount := 2, nextId := 1 })) ∧
    (({ slot := some 0, refcount := 1, nextId := 1 } : MgrWorld).refcount = 1 ∧
      (VFSManagerRelease { slot := some 0, refcount := 1, nextId := 1 }).slot = none) :=
  ⟨⟨rfl, (c9_singleton_idempotent.1 { slot := some 0, refcount := 1, nextId := 1 }
      0 true rfl).1⟩,
    ⟨rfl, c9_singleton_idempotent.2.1 { slot := some 0, refcount := 1, nextId := 1 } rfl⟩⟩

/-- C10 counterexample: a 4097-byte password consisting of newlines does
contain `\n`, yet is rejected with `RC ( ..., rcSize, rcExcessive )` — the
size check precedes the line-break check — not with
`RC ( ..., rcEncryptionKey, rcInvalid )` as the claim states. -/
theorem c10_newline_password_cex :
    (List.replicate 4097 (10 : Nat)).contains 10 = true ∧
    VFSManagerUpdateKryptoPassword (List.replicate 4097 10) (.ok ()) =
      .error rcUpdateSizeExcessive ∧
    rcUpdateSizeExcessive ≠ rcUpdateKeyInvalid := by
  have hlen : (List.replicate 4097 (10 : Nat)).length = 4097 := List.length_replicate _ _
  have hne : List.replicate 4097 (10 : Nat) ≠ [] := by
    intro h; rw [h] at hlen; simp at hlen
  have hsz : VFS_KRYPTO_PASSWORD_MAX_SIZE < (List.replicate 4097 (10 : Nat)).length := by
    rw [hlen]; decide
  refine ⟨by decide, ?_, by decide⟩
  unfold VFSManagerUpdateKryptoPassword
  rw [if_neg hne, if_pos hsz]

/-- C10 (amended): the argument checks of `UpdateKryptoPassword` run before
any file access (the continuation performing them is never consulted): a
password of at most 4096 bytes containing `\n` or `\r` is rejected with
`(encryptionKey, invalid)`; a password longer than 4096 bytes is rejected
with `(size, excessive)` — this size check fires first, even when the
password also contains a line break. -/
theorem c10_update_validation (pw : List Nat) :
    (pw ≠ [] → pw.length ≤ VFS_KRYPTO_PASSWORD_MAX_SIZE →
      (pw.contains 10 = true ∨ pw.contains 13 = true) →
      ∀ rest, VFSManagerUpdateKryptoPassword pw rest = .error rcUpdateKeyInvalid) ∧
    (VFS_KRYPTO_PASSWORD_MAX_SIZE < pw.length →
      ∀ rest, VFSManagerUpdateKryptoPassword pw rest = .error rcUpdateSizeExcessive) := by
  constructor
  · intro h1 h2 h3 rest
    have hsz : ¬ VFS_KRYPTO_PASSWORD_MAX_SIZE < pw.length := by omega
    have hcontains : (pw.contains 10 || pw.contains 13) = true := by
      rcases h3 with h3 | h3
      · rw [h3, Bool.true_or]
      · rw [h3, Bool.or_true]
    simp only [VFSManagerUpdateKryptoPassword, if_neg h1, if_neg hsz, hcontains,
      if_pos]
  · intro h rest
    have h1 : pw ≠ [] := by
      intro he; rw [he] at h; simp [VFS_KRYPTO_PASSWORD_MAX_SIZE] at h
    simp [VFSManagerUpdateKryptoPassword, h1, h]

/-- C10 witness for `c10_update_validation`: the one-byte password `"\n"`. -/
theorem c10_update_validation_witness :
    (([10] : List Nat) ≠ [] ∧ ([10] : List Nat).length ≤ VFS_KRYPTO_PASSWORD_MAX_SIZE ∧
      ([10] : List Nat).contains 10 = true) ∧
    VFSManagerUpdateKryptoPassword [10] (.ok ()) = .error rcUpdateKeyInvalid :=
  ⟨⟨by decide, by decide, by decide⟩,
    (c10_update_validation [10]).1 (by decide) (by decide) (Or.inl (by decide)) (.ok ())⟩

end SRA
